import Mathlib

/-!
Shallow embedding of the frame-resource pipelining core of the
KennCKMak/AdvGraphicsAssignment repository (CastleApp.cpp and
LitColumnsApp.cpp), together with proofs about the dirty-tracked
constant propagation, the frame-resource ring / fence synchronization,
the pass-constant update and the dynamic wave-vertex channel.

Scalars are modelled by `ℚ` (the numeric structure of the update pass —
which value is stored where — does not depend on floating-point
rounding).  4x4 matrices are `Matrix (Fin 4) (Fin 4) ℚ`.  The fence
counter (`UINT64 mCurrentFence`) is modelled by `Nat`: its only
operation is `++`, and the 2^64 wrap is unreachable in any run, so
overflow does not matter for any statement below.
-/

/-- `const int gNumFrameResources = 3;` (CastleApp.cpp line 22,
LitColumnsApp.cpp line 18). -/
def gNumFrameResources : Nat := 3

abbrev Mat4 := Matrix (Fin 4) (Fin 4) ℚ

abbrev V3 := Fin 3 → ℚ

abbrev V4 := Fin 4 → ℚ

abbrev V2 := Fin 2 → ℚ

/-- Per-object constant record (`ObjectConstants` of FrameResource.h as
used by `UpdateObjectCBs`): the transposed world and texture-transform
matrices. -/
structure ObjectConstants where
  World : Mat4
  TexTransform : Mat4

/-- `struct RenderItem` (CastleApp.cpp lines 26-56, LitColumnsApp.cpp
lines 22-52).  Field defaults are the in-class initializers:
`World`/`TexTransform` start as the identity, `NumFramesDirty` starts
at `gNumFrameResources`, and `ObjCBIndex` starts as `UINT(-1)`. -/
structure RenderItem where
  World : Mat4 := 1
  TexTransform : Mat4 := 1
  NumFramesDirty : Int := (gNumFrameResources : Int)
  ObjCBIndex : Nat := 4294967295

instance : Inhabited RenderItem := ⟨{}⟩

/-- `struct Material` (Common/d3dUtil.h, not under src/).
Modelled from the spec: the Material carries the same dirty-counter
discipline as Render Item (counter initialized to N), a stable
`MatCBIndex` assigned at creation, and the authored shading fields that
`UpdateMaterialCBs` reads (`DiffuseAlbedo`, `FresnelR0`, `Roughness`,
`MatTransform`). -/
structure Material where
  Name : String := ""
  MatCBIndex : Nat := 4294967295
  DiffuseSrvHeapIndex : Nat := 4294967295
  DiffuseAlbedo : V4 := fun _ => 1
  FresnelR0 : V3 := fun _ => 1/100
  Roughness : ℚ := 1/4
  MatTransform : Mat4 := 1
  NumFramesDirty : Int := (gNumFrameResources : Int)

instance : Inhabited Material := ⟨{}⟩

/-- Per-material constant record as filled in by `UpdateMaterialCBs`. -/
structure MaterialConstants where
  DiffuseAlbedo : V4
  FresnelR0 : V3
  Roughness : ℚ
  MatTransform : Mat4

/-- Pass-level constant record: the fields of `PassConstants` that
`UpdateMainPassCB` computes from per-frame state (the six camera
matrices, eye position and timing; the light table is scene content
fixed by literals and is omitted). -/
structure PassConstants where
  View : Mat4
  InvView : Mat4
  Proj : Mat4
  InvProj : Mat4
  ViewProj : Mat4
  InvViewProj : Mat4
  EyePosW : V3
  TotalTime : ℚ
  DeltaTime : ℚ

/-- Vertex record written by `UpdateWaves`. -/
structure Vertex where
  Pos : V3
  Normal : V3
  TexC : V2

/-- Ring buffer of fixed-size records (`UploadBuffer<T>` of
Common/UploadBuffer.h, not under src/).
Modelled from the spec: `create(elementCount, stride)` allocates
`elementCount` records; `copyRecord(index, data)` writes `data` into
the record at `index` without disturbing other records.  The byte-level
stride arithmetic is collapsed into an indexed store; `data i = none`
means record `i` was never written. -/
structure UploadBuffer (α : Type) where
  elementCount : Nat
  data : Nat → Option α

instance (α : Type) : Inhabited (UploadBuffer α) :=
  ⟨{ elementCount := 0, data := fun _ => none }⟩

/-- `UploadBuffer<T>::CopyData(elementIndex, data)`.
Modelled from the spec: writes `data` into the region at the given
index; writing index `i` never perturbs index `j ≠ i`. -/
def UploadBuffer.CopyData {α : Type} (b : UploadBuffer α) (i : Nat) (v : α) :
    UploadBuffer α :=
  { b with data := fun j => if j = i then some v else b.data j }

/-- `struct FrameResource` (FrameResource.h/.cpp, not under src/).
Modelled from the spec: one command allocator (not represented), one
pass buffer (1 record), one per-object buffer, one per-material buffer,
one dynamic wave-vertex buffer, and the completion marker `Fence`
(0 = never submitted).  `handleId` is the identity of the underlying
wave vertex-buffer resource, used by the `UpdateWaves` repoint. -/
structure FrameResource where
  Fence : Nat := 0
  ObjectCB : UploadBuffer ObjectConstants
  MaterialCB : UploadBuffer MaterialConstants
  PassCB : UploadBuffer PassConstants
  WavesVB : UploadBuffer Vertex
  handleId : Nat

instance : Inhabited FrameResource :=
  ⟨{ ObjectCB := default, MaterialCB := default, PassCB := default,
     WavesVB := default, handleId := 0 }⟩

/-- `FrameResource::FrameResource(device, passCount, objectCount,
materialCount, waveVertCount)` — modelled from the spec: each ring
buffer is allocated with the given element count and starts unwritten;
the marker starts at 0. -/
def FrameResource.create (hid objectCount materialCount waveVertCount : Nat) :
    FrameResource :=
  { Fence := 0
    ObjectCB := { elementCount := objectCount, data := fun _ => none }
    MaterialCB := { elementCount := materialCount, data := fun _ => none }
    PassCB := { elementCount := 1, data := fun _ => none }
    WavesVB := { elementCount := waveVertCount, data := fun _ => none }
    handleId := hid }

/-- Wave-simulation output for one frame.  Modelled from the spec: the
simulation step (Waves.cpp, out of core scope) produces updated
positions and normals each frame; `Width`/`Depth` are the fixed grid
extents used for the tex-coord derivation. -/
structure WavesData where
  pos : Nat → V3
  normal : Nat → V3
  width : ℚ
  depth : ℚ

/-- Per-frame inputs from outside the core: camera matrices (from
`UpdateCamera`/`OnKeyboardInput`), eye position, timer values, how many
queued fence signals the GPU completes before this frame's fence poll,
and this frame's wave-simulation output. -/
structure EnvInput where
  view : Mat4
  proj : Mat4
  eye : V3
  tt : ℚ
  dt : ℚ
  gpuProgress : Nat
  waves : WavesData

/-- The application state threaded through the frame loop: the ring of
frame resources, the current ring index, the CPU-side fence counter
`mCurrentFence`, the render items and materials, the wave render item's
current vertex-buffer binding (`mWavesRitem->Geo->VertexBufferGPU`,
identified by resource id), the wave vertex count, and the fence:
the list of values signalled to the queue in submission order, plus
how many of those signals the GPU has completed. -/
structure AppState where
  frameResources : List FrameResource
  currFrameResourceIndex : Nat
  currentFence : Nat
  allRitems : List RenderItem
  materials : List (String × Material)
  wavesGeoVB : Nat
  wavesVertexCount : Nat
  fenceSignaled : List Nat
  gpuProcessed : Nat

/-- Observed completed value of the fence when the GPU has executed the
first `p` of the queued `signal` commands.
Modelled from the spec: the Completion Fence is a monotonically
increasing counter advanced by the GPU queue; its completed value is
the largest value among the signals the GPU has reached (0 if none). -/
def completedValue (signaled : List Nat) (p : Nat) : Nat :=
  (signaled.take p).foldr max 0

/-- The fence poll `mFence->GetCompletedValue()` made at the start of
`Update`, after the GPU has made this frame's progress. -/
def polledCompleted (st : AppState) (env : EnvInput) : Nat :=
  completedValue st.fenceSignaled (st.gpuProcessed + env.gpuProgress)

/-- The blocking condition of the ring advance (CastleApp.cpp line 268,
LitColumnsApp.cpp line 224):
`mCurrFrameResource->Fence != 0 && mFence->GetCompletedValue() < mCurrFrameResource->Fence`. -/
def advanceBlocks (marker completed : Nat) : Bool :=
  marker ≠ 0 && completed < marker

/-- GPU progress point reached by the one-shot wait
(`SetEventOnCompletion(marker)` / `WaitForSingleObject`).
Modelled from the spec: the wait primitive parks the thread until the
fence's completed value reaches `marker`; the model resolves the
GPU-progress nondeterminism by waking exactly when the GPU has executed
the first signal whose value is `≥ marker`. -/
def waitTarget (signaled : List Nat) (marker : Nat) : Nat :=
  signaled.findIdx (fun v => decide (marker ≤ v)) + 1

/-- `CastleApp::UpdateObjectCBs` payload for one render item
(lines 477-482): the transposed `World` and `TexTransform`. -/
def objPayload (e : RenderItem) : ObjectConstants :=
  { World := e.World.transpose, TexTransform := e.TexTransform.transpose }

/-- The loop of `CastleApp::UpdateObjectCBs` (lines 468-490,
LitColumnsApp.cpp lines 365-387): for each render item with
`NumFramesDirty > 0`, write the payload at `ObjCBIndex` into the
current per-object buffer and decrement the counter. -/
def UpdateObjectCBs (cb : UploadBuffer ObjectConstants) (items : List RenderItem) :
    UploadBuffer ObjectConstants × List RenderItem :=
  match items with
  | [] => (cb, [])
  | e :: rest =>
    if 0 < e.NumFramesDirty then
      let cb1 := cb.CopyData e.ObjCBIndex (objPayload e)
      let e1 : RenderItem := { e with NumFramesDirty := e.NumFramesDirty - 1 }
      let r := UpdateObjectCBs cb1 rest
      (r.1, e1 :: r.2)
    else
      let r := UpdateObjectCBs cb rest
      (r.1, e :: r.2)

/-- `CastleApp::UpdateMaterialCBs` payload for one material
(lines 502-508). -/
def matPayload (m : Material) : MaterialConstants :=
  { DiffuseAlbedo := m.DiffuseAlbedo, FresnelR0 := m.FresnelR0,
    Roughness := m.Roughness, MatTransform := m.MatTransform.transpose }

/-- The loop of `CastleApp::UpdateMaterialCBs` (lines 492-516,
LitColumnsApp.cpp lines 389-413). -/
def UpdateMaterialCBs (cb : UploadBuffer MaterialConstants)
    (mats : List (String × Material)) :
    UploadBuffer MaterialConstants × List (String × Material) :=
  match mats with
  | [] => (cb, [])
  | (n, m) :: rest =>
    if 0 < m.NumFramesDirty then
      let cb1 := cb.CopyData m.MatCBIndex (matPayload m)
      let m1 : Material := { m with NumFramesDirty := m.NumFramesDirty - 1 }
      let r := UpdateMaterialCBs cb1 rest
      (r.1, (n, m1) :: r.2)
    else
      let r := UpdateMaterialCBs cb rest
      (r.1, (n, m) :: r.2)

/-- The body of `CastleApp::AnimateMaterials` applied to the water
material (lines 446-465): scroll `MatTransform(3,0)` by `0.1*dt` and
`MatTransform(3,1)` by `0.02*dt`, wrap each back below 1, and set
`NumFramesDirty = gNumFrameResources`. -/
def animateWater (dt : ℚ) (m : Material) : Material :=
  let tu0 := m.MatTransform 3 0 + (1/10) * dt
  let tv0 := m.MatTransform 3 1 + (1/50) * dt
  let tu := if 1 ≤ tu0 then tu0 - 1 else tu0
  let tv := if 1 ≤ tv0 then tv0 - 1 else tv0
  { m with
    MatTransform := fun i j =>
      if i = 3 ∧ j = 0 then tu else if i = 3 ∧ j = 1 then tv else m.MatTransform i j
    NumFramesDirty := (gNumFrameResources : Int) }

/-- `CastleApp::AnimateMaterials` (lines 443-466): mutates
`mMaterials["water"]` and nothing else. -/
def AnimateMaterials (dt : ℚ) (mats : List (String × Material)) :
    List (String × Material) :=
  mats.map (fun p => if p.1 = "water" then (p.1, animateWater dt p.2) else p)

/-- `XMMatrixInverse(&XMMatrixDeterminant(M), M)`: the general
determinant-based 4x4 inverse, `(det M)⁻¹ • adjugate M`. -/
def inv4 (M : Mat4) : Mat4 := (M.det)⁻¹ • M.adjugate

/-- The pass-constant record computed by `CastleApp::UpdateMainPassCB`
(lines 518-541, LitColumnsApp.cpp lines 415-437): `viewProj = view*proj`,
inverses via `inv4`, all six matrices stored transposed. -/
def mkMainPassCB (view proj : Mat4) (eye : V3) (tt dt : ℚ) : PassConstants :=
  let viewProj := view * proj
  { View := view.transpose
    InvView := (inv4 view).transpose
    Proj := proj.transpose
    InvProj := (inv4 proj).transpose
    ViewProj := viewProj.transpose
    InvViewProj := (inv4 viewProj).transpose
    EyePosW := eye
    TotalTime := tt
    DeltaTime := dt }

/-- The vertex built by `CastleApp::UpdateWaves` for simulation index
`i` (lines 610-618): position and normal from the simulation, tex
coords derived from position. -/
def waveVertex (w : WavesData) (i : Nat) : Vertex :=
  { Pos := w.pos i
    Normal := w.normal i
    TexC := fun j =>
      if j = 0 then 1/2 + w.pos i 0 / w.width else 1/2 - w.pos i 2 / w.depth }

/-- The copy loop of `CastleApp::UpdateWaves` (lines 608-621): every
vertex `i < VertexCount()` is copied unconditionally into the wave
vertex ring buffer. -/
def UpdateWavesVB (w : WavesData) (count : Nat) (vb : UploadBuffer Vertex) :
    UploadBuffer Vertex :=
  (List.range count).foldl (fun b i => b.CopyData i (waveVertex w i)) vb

/-- One execution of `CastleApp::Update` (lines 257-281): advance the
ring index, poll the fence and wait if the newly selected slot is still
in flight, then run `AnimateMaterials`, `UpdateObjectCBs`,
`UpdateMaterialCBs`, `UpdateMainPassCB` and `UpdateWaves` against the
now-current frame resource. -/
def updatePhase (st : AppState) (env : EnvInput) : AppState :=
  let idx := (st.currFrameResourceIndex + 1) % gNumFrameResources
  let fr := st.frameResources.getD idx default
  let p1 := st.gpuProcessed + env.gpuProgress
  let completed := completedValue st.fenceSignaled p1
  let p2 := if advanceBlocks fr.Fence completed
    then max p1 (waitTarget st.fenceSignaled fr.Fence) else p1
  let mats1 := AnimateMaterials env.dt st.materials
  let ro := UpdateObjectCBs fr.ObjectCB st.allRitems
  let rm := UpdateMaterialCBs fr.MaterialCB mats1
  let passCB1 := fr.PassCB.CopyData 0 (mkMainPassCB env.view env.proj env.eye env.tt env.dt)
  let wavesVB1 := UpdateWavesVB env.waves st.wavesVertexCount fr.WavesVB
  let fr1 : FrameResource :=
    { fr with
      ObjectCB := ro.1
      MaterialCB := rm.1
      PassCB := passCB1
      WavesVB := wavesVB1 }
  { st with
    currFrameResourceIndex := idx
    frameResources := st.frameResources.set idx fr1
    gpuProcessed := p2
    allRitems := ro.2
    materials := rm.2
    wavesGeoVB := fr1.handleId }

/-- The retire step of `CastleApp::Draw` (lines 343-349,
LitColumnsApp.cpp lines 286-292): `mCurrFrameResource->Fence =
++mCurrentFence; mCommandQueue->Signal(mFence, mCurrentFence);`.
Command recording and presentation do not touch the modelled state. -/
def drawPhase (st : AppState) : AppState :=
  let newFence := st.currentFence + 1
  let idx := st.currFrameResourceIndex
  let fr := st.frameResources.getD idx default
  { st with
    currentFence := newFence
    frameResources := st.frameResources.set idx { fr with Fence := newFence }
    fenceSignaled := st.fenceSignaled ++ [newFence] }

/-- One full frame: `Update` followed by `Draw`. -/
def frameStep (st : AppState) (env : EnvInput) : AppState :=
  drawPhase (updatePhase st env)

theorem CopyData_data {α : Type} (b : UploadBuffer α) (i j : Nat) (v : α) :
    (b.CopyData i v).data j = if j = i then some v else b.data j := rfl

theorem getD_map_lt {α β : Type} (f : α → β) (l : List α) (j : Nat) (d : α)
    (d' : β) (h : j < l.length) : (l.map f).getD j d' = f (l.getD j d) := by
  induction l generalizing j with
  | nil => simp at h
  | cons a t ih =>
    cases j with
    | zero => rfl
    | succ j => exact ih j (by simpa using h)

theorem getD_set_lt {α : Type} (l : List α) (n m : Nat) (a d : α)
    (h : m < l.length) :
    (l.set n a).getD m d = if m = n then a else l.getD m d := by
  induction l generalizing n m with
  | nil => simp at h
  | cons b t ih =>
    cases n with
    | zero =>
      cases m with
      | zero => rfl
      | succ m => simp [List.set]
    | succ n =>
      cases m with
      | zero => simp [List.set]
      | succ m =>
        have := ih n m (by simpa using h)
        simpa [List.set, Nat.succ_inj] using this

/-- The per-item effect of one `UpdateObjectCBs` pass on the item
itself: decrement the counter when it is positive, otherwise leave the
item alone. -/
def stepObjItem (e : RenderItem) : RenderItem :=
  if 0 < e.NumFramesDirty then { e with NumFramesDirty := e.NumFramesDirty - 1 }
  else e

/-- The per-material effect of one `UpdateMaterialCBs` pass. -/
def stepMatItem (p : String × Material) : String × Material :=
  if 0 < p.2.NumFramesDirty then
    (p.1, { p.2 with NumFramesDirty := p.2.NumFramesDirty - 1 })
  else p

theorem UpdateObjectCBs_snd (cb : UploadBuffer ObjectConstants)
    (l : List RenderItem) : (UpdateObjectCBs cb l).2 = l.map stepObjItem := by
  induction l generalizing cb with
  | nil => rfl
  | cons e t ih =>
    by_cases h : 0 < e.NumFramesDirty <;>
      simp [UpdateObjectCBs, stepObjItem, h, ih]

theorem UpdateMaterialCBs_snd (cb : UploadBuffer MaterialConstants)
    (l : List (String × Material)) :
    (UpdateMaterialCBs cb l).2 = l.map stepMatItem := by
  induction l generalizing cb with
  | nil => rfl
  | cons p t ih =>
    obtain ⟨n, m⟩ := p
    by_cases h : 0 < m.NumFramesDirty <;>
      simp [UpdateMaterialCBs, stepMatItem, h, ih]

theorem UpdateObjectCBs_fst_untouched (cb : UploadBuffer ObjectConstants)
    (l : List RenderItem) (i : Nat)
    (h : ∀ e ∈ l, 0 < e.NumFramesDirty → e.ObjCBIndex ≠ i) :
    (UpdateObjectCBs cb l).1.data i = cb.data i := by
  induction l generalizing cb with
  | nil => rfl
  | cons e t ih =>
    by_cases hd : 0 < e.NumFramesDirty
    · have hne : e.ObjCBIndex ≠ i := h e (by simp) hd
      have hrec := ih (cb.CopyData e.ObjCBIndex (objPayload e))
        (fun x hx => h x (by simp [hx]))
      calc (UpdateObjectCBs cb (e :: t)).1.data i
          = (UpdateObjectCBs (cb.CopyData e.ObjCBIndex (objPayload e)) t).1.data i := by
            simp [UpdateObjectCBs, hd]
        _ = (cb.CopyData e.ObjCBIndex (objPayload e)).data i := hrec
        _ = cb.data i := by
            rw [CopyData_data]
            exact if_neg (fun hh => hne hh.symm)
    · have := ih cb (fun x hx => h x (by simp [hx]))
      simpa [UpdateObjectCBs, hd] using this

theorem UpdateObjectCBs_fst_writer (cb : UploadBuffer ObjectConstants)
    (l : List RenderItem) (k : Nat)
    (hk : k < l.length)
    (hd : 0 < (l.getD k default).NumFramesDirty)
    (hu : ∀ j, j < l.length → j ≠ k →
      (l.getD j default).ObjCBIndex ≠ (l.getD k default).ObjCBIndex) :
    (UpdateObjectCBs cb l).1.data ((l.getD k default).ObjCBIndex)
      = some (objPayload (l.getD k default)) := by
  induction l generalizing cb k with
  | nil => simp at hk
  | cons e t ih =>
    cases k with
    | zero =>
      simp only [List.getD_cons_zero] at hd hu ⊢
      have hrest : ∀ x ∈ t, 0 < x.NumFramesDirty → x.ObjCBIndex ≠ e.ObjCBIndex := by
        intro x hx _
        obtain ⟨j, hj, hxj⟩ := List.mem_iff_getElem.mp hx
        have hj1 : j + 1 < (e :: t).length := by simpa using Nat.succ_lt_succ hj
        have h2 := hu (j + 1) hj1 (by omega)
        have h3 : (e :: t).getD (j + 1) default = x := by
          rw [List.getD_cons_succ, List.getD_eq_getElem?_getD,
            List.getElem?_eq_getElem hj, Option.getD_some]
          exact hxj
        rw [h3] at h2
        exact h2
      simp only [UpdateObjectCBs, hd, if_pos]
      rw [UpdateObjectCBs_fst_untouched _ _ _ hrest, CopyData_data]
      simp
    | succ k =>
      simp only [List.getD_cons_succ] at hd hu ⊢
      have hk' : k < t.length := by simpa using hk
      have hu' : ∀ j, j < t.length → j ≠ k →
          (t.getD j default).ObjCBIndex ≠ (t.getD k default).ObjCBIndex := by
        intro j hj hjk
        have := hu (j + 1) (by simpa using Nat.succ_lt_succ hj) (by omega)
        simpa [List.getD_cons_succ] using this
      by_cases he : 0 < e.NumFramesDirty
      · simp only [UpdateObjectCBs, he, if_pos]
        exact ih _ k hk' hd hu'
      · simp only [UpdateObjectCBs, he, if_neg, not_false_iff]
        exact ih _ k hk' hd hu'

theorem updatePhase_currIdx (st : AppState) (env : EnvInput) :
    (updatePhase st env).currFrameResourceIndex
      = (st.currFrameResourceIndex + 1) % gNumFrameResources := rfl

theorem updatePhase_allRitems (st : AppState) (env : EnvInput) :
    (updatePhase st env).allRitems = st.allRitems.map stepObjItem := by
  simp only [updatePhase, UpdateObjectCBs_snd]

theorem updatePhase_materials (st : AppState) (env : EnvInput) :
    (updatePhase st env).materials
      = (AnimateMaterials env.dt st.materials).map stepMatItem := by
  simp only [updatePhase, UpdateMaterialCBs_snd]

theorem updatePhase_fenceSignaled (st : AppState) (env : EnvInput) :
    (updatePhase st env).fenceSignaled = st.fenceSignaled := rfl

theorem updatePhase_currentFence (st : AppState) (env : EnvInput) :
    (updatePhase st env).currentFence = st.currentFence := rfl

theorem updatePhase_frameResources_length (st : AppState) (env : EnvInput) :
    (updatePhase st env).frameResources.length = st.frameResources.length := by
  simp only [updatePhase, List.length_set]

theorem updatePhase_ObjectCB_data (st : AppState) (env : EnvInput) (s i : Nat)
    (hfr : st.frameResources.length = gNumFrameResources)
    (hs : s < gNumFrameResources) :
    ((updatePhase st env).frameResources.getD s default).ObjectCB.data i
      = if s = (st.currFrameResourceIndex + 1) % gNumFrameResources
        then (UpdateObjectCBs
          (st.frameResources.getD
            ((st.currFrameResourceIndex + 1) % gNumFrameResources) default).ObjectCB
          st.allRitems).1.data i
        else (st.frameResources.getD s default).ObjectCB.data i := by
  have hs' : s < st.frameResources.length := by omega
  simp only [updatePhase]
  rw [getD_set_lt _ _ _ _ _ hs']
  by_cases he : s = (st.currFrameResourceIndex + 1) % gNumFrameResources
  · simp [he]
  · simp [he]

theorem updatePhase_PassCB_data (st : AppState) (env : EnvInput) (i : Nat)
    (hfr : st.frameResources.length = gNumFrameResources) :
    (((updatePhase st env).frameResources.getD
        ((updatePhase st env).currFrameResourceIndex) default).PassCB).data i
      = ((st.frameResources.getD
          ((st.currFrameResourceIndex + 1) % gNumFrameResources) default).PassCB.CopyData 0
            (mkMainPassCB env.view env.proj env.eye env.tt env.dt)).data i := by
  have hs' : (st.currFrameResourceIndex + 1) % gNumFrameResources
      < st.frameResources.length := by
    rw [hfr]; exact Nat.mod_lt _ (by decide)
  rw [updatePhase_currIdx]
  simp only [updatePhase]
  rw [getD_set_lt _ _ _ _ _ hs']
  simp

theorem updatePhase_WavesVB_data (st : AppState) (env : EnvInput) (i : Nat)
    (hfr : st.frameResources.length = gNumFrameResources) :
    (((updatePhase st env).frameResources.getD
        ((updatePhase st env).currFrameResourceIndex) default).WavesVB).data i
      = (UpdateWavesVB env.waves st.wavesVertexCount
          (st.frameResources.getD
            ((st.currFrameResourceIndex + 1) % gNumFrameResources) default).WavesVB).data i := by
  have hs' : (st.currFrameResourceIndex + 1) % gNumFrameResources
      < st.frameResources.length := by
    rw [hfr]; exact Nat.mod_lt _ (by decide)
  rw [updatePhase_currIdx]
  simp only [updatePhase]
  rw [getD_set_lt _ _ _ _ _ hs']
  simp

theorem updatePhase_wavesGeoVB (st : AppState) (env : EnvInput) :
    (updatePhase st env).wavesGeoVB
      = (st.frameResources.getD
          ((st.currFrameResourceIndex + 1) % gNumFrameResources) default).handleId := rfl

theorem updatePhase_Fence (st : AppState) (env : EnvInput) (s : Nat)
    (hfr : st.frameResources.length = gNumFrameResources)
    (hs : s < gNumFrameResources) :
    ((updatePhase st env).frameResources.getD s default).Fence
      = (st.frameResources.getD s default).Fence := by
  have hs' : s < st.frameResources.length := by omega
  simp only [updatePhase]
  rw [getD_set_lt _ _ _ _ _ hs']
  by_cases he : s = (st.currFrameResourceIndex + 1) % gNumFrameResources
  · simp [he]
  · simp [he]

theorem updatePhase_gpuProcessed (st : AppState) (env : EnvInput) :
    (updatePhase st env).gpuProcessed
      = (if advanceBlocks
            (st.frameResources.getD
              ((st.currFrameResourceIndex + 1) % gNumFrameResources) default).Fence
            (polledCompleted st env)
         then max (st.gpuProcessed + env.gpuProgress)
           (waitTarget st.fenceSignaled
             (st.frameResources.getD
               ((st.currFrameResourceIndex + 1) % gNumFrameResources) default).Fence)
         else st.gpuProcessed + env.gpuProgress) := rfl

theorem drawPhase_currIdx (st : AppState) :
    (drawPhase st).currFrameResourceIndex = st.currFrameResourceIndex := rfl

theorem drawPhase_allRitems (st : AppState) :
    (drawPhase st).allRitems = st.allRitems := rfl

theorem drawPhase_materials (st : AppState) :
    (drawPhase st).materials = st.materials := rfl

theorem drawPhase_wavesGeoVB (st : AppState) :
    (drawPhase st).wavesGeoVB = st.wavesGeoVB := rfl

theorem drawPhase_currentFence (st : AppState) :
    (drawPhase st).currentFence = st.currentFence + 1 := rfl

theorem drawPhase_fenceSignaled (st : AppState) :
    (drawPhase st).fenceSignaled = st.fenceSignaled ++ [st.currentFence + 1] := rfl

theorem drawPhase_gpuProcessed (st : AppState) :
    (drawPhase st).gpuProcessed = st.gpuProcessed := rfl

theorem drawPhase_frameResources_length (st : AppState) :
    (drawPhase st).frameResources.length = st.frameResources.length := by
  simp only [drawPhase, List.length_set]

theorem drawPhase_ObjectCB (st : AppState) (s : Nat) :
    ((drawPhase st).frameResources.getD s default).ObjectCB
      = (st.frameResources.getD s default).ObjectCB := by
  by_cases hs : s < st.frameResources.length
  · simp only [drawPhase]
    rw [getD_set_lt _ _ _ _ _ hs]
    by_cases he : s = st.currFrameResourceIndex
    · simp [he]
    · simp [he]
  · have h1 : st.frameResources.getD s default = default :=
      List.getD_eq_default _ _ (by omega)
    have h2 : (drawPhase st).frameResources.getD s default = default :=
      List.getD_eq_default _ _ (by rw [drawPhase_frameResources_length]; omega)
    rw [h1, h2]

theorem drawPhase_PassCB (st : AppState) (s : Nat) :
    ((drawPhase st).frameResources.getD s default).PassCB
      = (st.frameResources.getD s default).PassCB := by
  by_cases hs : s < st.frameResources.length
  · simp only [drawPhase]
    rw [getD_set_lt _ _ _ _ _ hs]
    by_cases he : s = st.currFrameResourceIndex
    · simp [he]
    · simp [he]
  · have h1 : st.frameResources.getD s default = default :=
      List.getD_eq_default _ _ (by omega)
    have h2 : (drawPhase st).frameResources.getD s default = default :=
      List.getD_eq_default _ _ (by rw [drawPhase_frameResources_length]; omega)
    rw [h1, h2]

theorem drawPhase_WavesVB (st : AppState) (s : Nat) :
    ((drawPhase st).frameResources.getD s default).WavesVB
      = (st.frameResources.getD s default).WavesVB := by
  by_cases hs : s < st.frameResources.length
  · simp only [drawPhase]
    rw [getD_set_lt _ _ _ _ _ hs]
    by_cases he : s = st.currFrameResourceIndex
    · simp [he]
    · simp [he]
  · have h1 : st.frameResources.getD s default = default :=
      List.getD_eq_default _ _ (by omega)
    have h2 : (drawPhase st).frameResources.getD s default = default :=
      List.getD_eq_default _ _ (by rw [drawPhase_frameResources_length]; omega)
    rw [h1, h2]

theorem drawPhase_Fence (st : AppState) (s : Nat)
    (hs : s < st.frameResources.length) :
    ((drawPhase st).frameResources.getD s default).Fence
      = if s = st.currFrameResourceIndex then st.currentFence + 1
        else (st.frameResources.getD s default).Fence := by
  simp only [drawPhase]
  rw [getD_set_lt _ _ _ _ _ hs]
  by_cases he : s = st.currFrameResourceIndex
  · simp [he]
  · simp [he]

/-- Uniqueness of the `k`-th render item's ring-buffer index among the
items of the list (in both apps every item receives a fresh index from
a running counter, so this holds for every `k`). -/
abbrev objIdxOK (l : List RenderItem) (k : Nat) : Prop :=
  ∀ j, j < l.length → j ≠ k →
    (l.getD j default).ObjCBIndex ≠ (l.getD k default).ObjCBIndex

theorem stepObjItem_World (e : RenderItem) : (stepObjItem e).World = e.World := by
  unfold stepObjItem; split <;> rfl

theorem stepObjItem_TexTransform (e : RenderItem) :
    (stepObjItem e).TexTransform = e.TexTransform := by
  unfold stepObjItem; split <;> rfl

theorem stepObjItem_ObjCBIndex (e : RenderItem) :
    (stepObjItem e).ObjCBIndex = e.ObjCBIndex := by
  unfold stepObjItem; split <;> rfl

theorem objPayload_stepObjItem (e : RenderItem) :
    objPayload (stepObjItem e) = objPayload e := by
  unfold objPayload
  rw [stepObjItem_World, stepObjItem_TexTransform]

theorem frameStep_currIdx (st : AppState) (env : EnvInput) :
    (frameStep st env).currFrameResourceIndex
      = (st.currFrameResourceIndex + 1) % gNumFrameResources := rfl

theorem frameStep_allRitems (st : AppState) (env : EnvInput) :
    (frameStep st env).allRitems = st.allRitems.map stepObjItem := by
  rw [frameStep, drawPhase_allRitems, updatePhase_allRitems]

theorem frameStep_allRitems_length (st : AppState) (env : EnvInput) :
    (frameStep st env).allRitems.length = st.allRitems.length := by
  rw [frameStep_allRitems, List.length_map]

theorem frameStep_frameResources_length (st : AppState) (env : EnvInput) :
    (frameStep st env).frameResources.length = st.frameResources.length := by
  rw [frameStep, drawPhase_frameResources_length, updatePhase_frameResources_length]

theorem frameStep_item (st : AppState) (env : EnvInput) (k : Nat)
    (hk : k < st.allRitems.length) :
    (frameStep st env).allRitems.getD k default
      = stepObjItem (st.allRitems.getD k default) := by
  rw [frameStep_allRitems, getD_map_lt _ _ _ default _ hk]

theorem frameStep_objIdxOK (st : AppState) (env : EnvInput) (k : Nat)
    (hk : k < st.allRitems.length) (hu : objIdxOK st.allRitems k) :
    objIdxOK (frameStep st env).allRitems k := by
  intro j hj hjk
  rw [frameStep_allRitems_length] at hj
  rw [frameStep_item _ _ _ hj, frameStep_item _ _ _ hk,
    stepObjItem_ObjCBIndex, stepObjItem_ObjCBIndex]
  exact hu j hj hjk

theorem frameStep_ObjectCB_data (st : AppState) (env : EnvInput) (s i : Nat)
    (hfr : st.frameResources.length = gNumFrameResources)
    (hs : s < gNumFrameResources) :
    ((frameStep st env).frameResources.getD s default).ObjectCB.data i
      = if s = (st.currFrameResourceIndex + 1) % gNumFrameResources
        then (UpdateObjectCBs
          (st.frameResources.getD
            ((st.currFrameResourceIndex + 1) % gNumFrameResources) default).ObjectCB
          st.allRitems).1.data i
        else (st.frameResources.getD s default).ObjectCB.data i := by
  rw [frameStep, drawPhase_ObjectCB]
  exact updatePhase_ObjectCB_data st env s i hfr hs

/-- One frame's effect on a single render item `k` with a unique
ring-buffer index: the item's counter is decremented exactly when it was
positive, and the then-current frame resource's per-object buffer
receives the item's payload at the item's index exactly when the counter
was positive; no other slot's record at that index changes. -/
theorem frameObj (st : AppState) (env : EnvInput) (k s : Nat)
    (hfr : st.frameResources.length = gNumFrameResources)
    (hk : k < st.allRitems.length)
    (hu : objIdxOK st.allRitems k)
    (hs : s < gNumFrameResources) :
    ((frameStep st env).frameResources.getD s default).ObjectCB.data
        (st.allRitems.getD k default).ObjCBIndex
      = if s = (st.currFrameResourceIndex + 1) % gNumFrameResources ∧
            0 < (st.allRitems.getD k default).NumFramesDirty
        then some (objPayload (st.allRitems.getD k default))
        else (st.frameResources.getD s default).ObjectCB.data
          (st.allRitems.getD k default).ObjCBIndex := by
  rw [frameStep_ObjectCB_data st env s _ hfr hs]
  by_cases he : s = (st.currFrameResourceIndex + 1) % gNumFrameResources
  · by_cases hd : 0 < (st.allRitems.getD k default).NumFramesDirty
    · rw [if_pos he, if_pos ⟨he, hd⟩]
      exact UpdateObjectCBs_fst_writer _ _ k hk hd hu
    · rw [if_pos he, if_neg (by tauto)]
      have huntouched : ∀ x ∈ st.allRitems, 0 < x.NumFramesDirty →
          x.ObjCBIndex ≠ (st.allRitems.getD k default).ObjCBIndex := by
        intro x hx hxd
        obtain ⟨j, hj, hxj⟩ := List.mem_iff_getElem.mp hx
        have hgd : st.allRitems.getD j default = x := by
          rw [List.getD_eq_getElem?_getD, List.getElem?_eq_getElem hj,
            Option.getD_some]
          exact hxj
        by_cases hjk : j = k
        · exfalso; apply hd; rw [← hjk, hgd]; exact hxd
        · have := hu j hj hjk
          rw [hgd] at this
          exact this
      rw [UpdateObjectCBs_fst_untouched _ _ _ huntouched, he]
  · rw [if_neg he, if_neg (by tauto)]

theorem stepObjItem_counter (e : RenderItem) :
    (stepObjItem e).NumFramesDirty
      = if 0 < e.NumFramesDirty then e.NumFramesDirty - 1
        else e.NumFramesDirty := by
  unfold stepObjItem; split <;> simp_all

theorem frameObjPos (st : AppState) (env : EnvInput) (k s : Nat)
    (hfr : st.frameResources.length = gNumFrameResources)
    (hk : k < st.allRitems.length)
    (hu : objIdxOK st.allRitems k)
    (hs : s < gNumFrameResources)
    (hd : 0 < (st.allRitems.getD k default).NumFramesDirty) :
    ((frameStep st env).frameResources.getD s default).ObjectCB.data
        (st.allRitems.getD k default).ObjCBIndex
      = if s = (st.currFrameResourceIndex + 1) % gNumFrameResources
        then some (objPayload (st.allRitems.getD k default))
        else (st.frameResources.getD s default).ObjectCB.data
          (st.allRitems.getD k default).ObjCBIndex := by
  rw [frameObj st env k s hfr hk hu hs]
  by_cases hse : s = (st.currFrameResourceIndex + 1) % gNumFrameResources
  · rw [if_pos ⟨hse, hd⟩, if_pos hse]
  · rw [if_neg (by tauto), if_neg hse]

/-- Claim C2: a render item whose dirty counter was just set to
`N = gNumFrameResources = 3` has its transposed payload written into the
then-current frame resource's per-object buffer at its `ObjCBIndex` on
each of the next 3 frames, with the counter decremented by exactly one
at each such write; after those 3 frames all 3 frame resources hold the
updated payload at that index and the counter is 0.  (Render items are
never mutated by any per-frame code in either app, so "no further
mutation" holds by construction of the model; the index-uniqueness
hypothesis `objIdxOK` reflects the fresh-counter index assignment of
`BuildRenderItems`.) -/
theorem C2_propagation_completeness (st : AppState) (a b c : EnvInput) (k : Nat)
    (hfr : st.frameResources.length = gNumFrameResources)
    (hk : k < st.allRitems.length)
    (hu : objIdxOK st.allRitems k)
    (hdirty : (st.allRitems.getD k default).NumFramesDirty = 3) :
    (((frameStep st a).frameResources.getD
        (frameStep st a).currFrameResourceIndex default).ObjectCB.data
        (st.allRitems.getD k default).ObjCBIndex
      = some (objPayload (st.allRitems.getD k default))) ∧
    ((frameStep st a).allRitems.getD k default).NumFramesDirty = 2 ∧
    (((frameStep (frameStep st a) b).frameResources.getD
        (frameStep (frameStep st a) b).currFrameResourceIndex default).ObjectCB.data
        (st.allRitems.getD k default).ObjCBIndex
      = some (objPayload (st.allRitems.getD k default))) ∧
    ((frameStep (frameStep st a) b).allRitems.getD k default).NumFramesDirty = 1 ∧
    (((frameStep (frameStep (frameStep st a) b) c).frameResources.getD
        (frameStep (frameStep (frameStep st a) b) c).currFrameResourceIndex
          default).ObjectCB.data
        (st.allRitems.getD k default).ObjCBIndex
      = some (objPayload (st.allRitems.getD k default))) ∧
    ((frameStep (frameStep (frameStep st a) b) c).allRitems.getD k
        default).NumFramesDirty = 0 ∧
    (∀ s, s < gNumFrameResources →
      ((frameStep (frameStep (frameStep st a) b) c).frameResources.getD s
          default).ObjectCB.data (st.allRitems.getD k default).ObjCBIndex
        = some (objPayload (st.allRitems.getD k default))) := by
  have hd0 : 0 < (st.allRitems.getD k default).NumFramesDirty := by
    rw [hdirty]; norm_num
  -- frame 1 bookkeeping
  have hfr1 : (frameStep st a).frameResources.length = gNumFrameResources := by
    rw [frameStep_frameResources_length]; exact hfr
  have hk1 : k < (frameStep st a).allRitems.length := by
    rw [frameStep_allRitems_length]; exact hk
  have hu1 : objIdxOK (frameStep st a).allRitems k := frameStep_objIdxOK st a k hk hu
  have hi1 : ((frameStep st a).allRitems.getD k default).ObjCBIndex
      = (st.allRitems.getD k default).ObjCBIndex := by
    rw [frameStep_item st a k hk, stepObjItem_ObjCBIndex]
  have hp1 : objPayload ((frameStep st a).allRitems.getD k default)
      = objPayload (st.allRitems.getD k default) := by
    rw [frameStep_item st a k hk, objPayload_stepObjItem]
  have hc1 : ((frameStep st a).allRitems.getD k default).NumFramesDirty = 2 := by
    rw [frameStep_item st a k hk, stepObjItem_counter, hdirty]; norm_num
  have hd1 : 0 < ((frameStep st a).allRitems.getD k default).NumFramesDirty := by
    rw [hc1]; norm_num
  -- frame 2 bookkeeping
  have hfr2 : (frameStep (frameStep st a) b).frameResources.length
      = gNumFrameResources := by
    rw [frameStep_frameResources_length]; exact hfr1
  have hk2 : k < (frameStep (frameStep st a) b).allRitems.length := by
    rw [frameStep_allRitems_length]; exact hk1
  have hu2 : objIdxOK (frameStep (frameStep st a) b).allRitems k :=
    frameStep_objIdxOK _ b k hk1 hu1
  have hi2 : ((frameStep (frameStep st a) b).allRitems.getD k default).ObjCBIndex
      = (st.allRitems.getD k default).ObjCBIndex := by
    rw [frameStep_item _ b k hk1, stepObjItem_ObjCBIndex, hi1]
  have hp2 : objPayload ((frameStep (frameStep st a) b).allRitems.getD k default)
      = objPayload (st.allRitems.getD k default) := by
    rw [frameStep_item _ b k hk1, objPayload_stepObjItem, hp1]
  have hc2 : ((frameStep (frameStep st a) b).allRitems.getD k
      default).NumFramesDirty = 1 := by
    rw [frameStep_item _ b k hk1, stepObjItem_counter, hc1]; norm_num
  have hd2 : 0 < ((frameStep (frameStep st a) b).allRitems.getD k
      default).NumFramesDirty := by
    rw [hc2]; norm_num
  -- frame 3 counter
  have hc3 : ((frameStep (frameStep (frameStep st a) b) c).allRitems.getD k
      default).NumFramesDirty = 0 := by
    rw [frameStep_item _ c k hk2, stepObjItem_counter, hc2]; norm_num
  -- per-frame write equations, all phrased at the original index/payload
  have hW1 : ∀ s, s < gNumFrameResources →
      ((frameStep st a).frameResources.getD s default).ObjectCB.data
          (st.allRitems.getD k default).ObjCBIndex
        = if s = (st.currFrameResourceIndex + 1) % gNumFrameResources
          then some (objPayload (st.allRitems.getD k default))
          else (st.frameResources.getD s default).ObjectCB.data
            (st.allRitems.getD k default).ObjCBIndex := by
    intro s hs
    exact frameObjPos st a k s hfr hk hu hs hd0
  have hW2 : ∀ s, s < gNumFrameResources →
      ((frameStep (frameStep st a) b).frameResources.getD s default).ObjectCB.data
          (st.allRitems.getD k default).ObjCBIndex
        = if s = ((frameStep st a).currFrameResourceIndex + 1) % gNumFrameResources
          then some (objPayload (st.allRitems.getD k default))
          else ((frameStep st a).frameResources.getD s default).ObjectCB.data
            (st.allRitems.getD k default).ObjCBIndex := by
    intro s hs
    have h := frameObjPos (frameStep st a) b k s hfr1 hk1 hu1 hs hd1
    rw [hi1, hp1] at h
    exact h
  have hW3 : ∀ s, s < gNumFrameResources →
      ((frameStep (frameStep (frameStep st a) b) c).frameResources.getD s
          default).ObjectCB.data (st.allRitems.getD k default).ObjCBIndex
        = if s = ((frameStep (frameStep st a) b).currFrameResourceIndex + 1)
              % gNumFrameResources
          then some (objPayload (st.allRitems.getD k default))
          else ((frameStep (frameStep st a) b).frameResources.getD s
            default).ObjectCB.data (st.allRitems.getD k default).ObjCBIndex := by
    intro s hs
    have h := frameObjPos (frameStep (frameStep st a) b) c k s hfr2 hk2 hu2 hs hd2
    rw [hi2, hp2] at h
    exact h
  -- ring indices of the three frames
  have hcur1 : (frameStep st a).currFrameResourceIndex
      = (st.currFrameResourceIndex + 1) % gNumFrameResources :=
    frameStep_currIdx st a
  have hcur2 : (frameStep (frameStep st a) b).currFrameResourceIndex
      = ((frameStep st a).currFrameResourceIndex + 1) % gNumFrameResources :=
    frameStep_currIdx _ b
  have hcur3 : (frameStep (frameStep (frameStep st a) b) c).currFrameResourceIndex
      = ((frameStep (frameStep st a) b).currFrameResourceIndex + 1)
          % gNumFrameResources :=
    frameStep_currIdx _ c
  have hm1 : (st.currFrameResourceIndex + 1) % gNumFrameResources
      < gNumFrameResources := Nat.mod_lt _ (by decide)
  have hm2 : ((frameStep st a).currFrameResourceIndex + 1) % gNumFrameResources
      < gNumFrameResources := Nat.mod_lt _ (by decide)
  have hm3 : ((frameStep (frameStep st a) b).currFrameResourceIndex + 1)
      % gNumFrameResources < gNumFrameResources := Nat.mod_lt _ (by decide)
  refine ⟨?_, hc1, ?_, hc2, ?_, hc3, ?_⟩
  · rw [hcur1, hW1 _ hm1, if_pos rfl]
  · rw [hcur2, hW2 _ hm2, if_pos rfl]
  · rw [hcur3, hW3 _ hm3, if_pos rfl]
  · intro s hs
    have hdistinct12 : (st.currFrameResourceIndex + 1) % gNumFrameResources
        ≠ ((frameStep st a).currFrameResourceIndex + 1) % gNumFrameResources := by
      rw [hcur1]
      simp only [gNumFrameResources] at *
      omega
    have hdistinct13 : (st.currFrameResourceIndex + 1) % gNumFrameResources
        ≠ ((frameStep (frameStep st a) b).currFrameResourceIndex + 1)
            % gNumFrameResources := by
      rw [hcur2, hcur1]
      simp only [gNumFrameResources] at *
      omega
    have hdistinct23 : ((frameStep st a).currFrameResourceIndex + 1)
        % gNumFrameResources
        ≠ ((frameStep (frameStep st a) b).currFrameResourceIndex + 1)
            % gNumFrameResources := by
      rw [hcur2, hcur1]
      simp only [gNumFrameResources] at *
      omega
    have hcover : s = (st.currFrameResourceIndex + 1) % gNumFrameResources
        ∨ s = ((frameStep st a).currFrameResourceIndex + 1) % gNumFrameResources
        ∨ s = ((frameStep (frameStep st a) b).currFrameResourceIndex + 1)
            % gNumFrameResources := by
      rw [hcur2, hcur1]
      simp only [gNumFrameResources] at *
      omega
    rcases hcover with h1 | h2 | h3
    · rw [hW3 _ hs, if_neg (by rw [h1]; exact hdistinct13),
        hW2 _ hs, if_neg (by rw [h1]; exact hdistinct12),
        hW1 _ hs, if_pos h1]
    · rw [hW3 _ hs, if_neg (by rw [h2]; exact hdistinct23),
        hW2 _ hs, if_pos h2]
    · rw [hW3 _ hs, if_pos h3]

/-- Claim C5: a render item whose dirty counter is 0 at the start of the
update pass causes no write to any frame resource's per-object buffer
at its index, and its counter stays unchanged, over any number of
subsequent frames (render items are never mutated by per-frame code, so
"until the item is mutated again" holds throughout the trace). -/
theorem C5_no_redundant_writes (st : AppState) (envs : List EnvInput) (k : Nat)
    (hfr : st.frameResources.length = gNumFrameResources)
    (hk : k < st.allRitems.length)
    (hu : objIdxOK st.allRitems k)
    (hzero : (st.allRitems.getD k default).NumFramesDirty = 0) :
    ((envs.foldl frameStep st).allRitems.getD k default).NumFramesDirty = 0 ∧
    ((envs.foldl frameStep st).allRitems.getD k default).ObjCBIndex
      = (st.allRitems.getD k default).ObjCBIndex ∧
    (∀ s, s < gNumFrameResources →
      ((envs.foldl frameStep st).frameResources.getD s default).ObjectCB.data
          (st.allRitems.getD k default).ObjCBIndex
        = (st.frameResources.getD s default).ObjectCB.data
          (st.allRitems.getD k default).ObjCBIndex) := by
  induction envs generalizing st with
  | nil => exact ⟨hzero, rfl, fun s _ => rfl⟩
  | cons env rest ih =>
    have hfr1 : (frameStep st env).frameResources.length = gNumFrameResources := by
      rw [frameStep_frameResources_length]; exact hfr
    have hk1 : k < (frameStep st env).allRitems.length := by
      rw [frameStep_allRitems_length]; exact hk
    have hu1 : objIdxOK (frameStep st env).allRitems k :=
      frameStep_objIdxOK st env k hk hu
    have hitem : (frameStep st env).allRitems.getD k default
        = stepObjItem (st.allRitems.getD k default) := frameStep_item st env k hk
    have hzero1 : ((frameStep st env).allRitems.getD k default).NumFramesDirty
        = 0 := by
      rw [hitem, stepObjItem_counter, hzero]; simp
    have hidx1 : ((frameStep st env).allRitems.getD k default).ObjCBIndex
        = (st.allRitems.getD k default).ObjCBIndex := by
      rw [hitem, stepObjItem_ObjCBIndex]
    have hbuf1 : ∀ s, s < gNumFrameResources →
        ((frameStep st env).frameResources.getD s default).ObjectCB.data
            (st.allRitems.getD k default).ObjCBIndex
          = (st.frameResources.getD s default).ObjectCB.data
            (st.allRitems.getD k default).ObjCBIndex := by
      intro s hs
      rw [frameObj st env k s hfr hk hu hs,
        if_neg (by rw [hzero]; exact fun hh => absurd hh.2 (by norm_num))]
    obtain ⟨ihz, ihidx, ihbuf⟩ := ih (frameStep st env) hfr1 hk1 hu1 hzero1
    rw [List.foldl_cons]
    refine ⟨ihz, ?_, ?_⟩
    · rw [ihidx, hidx1]
    · intro s hs
      have h1 := ihbuf s hs
      rw [hidx1] at h1
      rw [h1, hbuf1 s hs]

theorem animateWater_counter (dt : ℚ) (m : Material) :
    (animateWater dt m).NumFramesDirty = (gNumFrameResources : Int) := rfl

theorem animateWater_Name (dt : ℚ) (m : Material) :
    (animateWater dt m).Name = m.Name := rfl

theorem animateWater_MatCBIndex (dt : ℚ) (m : Material) :
    (animateWater dt m).MatCBIndex = m.MatCBIndex := rfl

theorem animateWater_DiffuseSrvHeapIndex (dt : ℚ) (m : Material) :
    (animateWater dt m).DiffuseSrvHeapIndex = m.DiffuseSrvHeapIndex := rfl

theorem animateWater_DiffuseAlbedo (dt : ℚ) (m : Material) :
    (animateWater dt m).DiffuseAlbedo = m.DiffuseAlbedo := rfl

theorem animateWater_FresnelR0 (dt : ℚ) (m : Material) :
    (animateWater dt m).FresnelR0 = m.FresnelR0 := rfl

theorem animateWater_Roughness (dt : ℚ) (m : Material) :
    (animateWater dt m).Roughness = m.Roughness := rfl

theorem animateWater_MatTransform_other (dt : ℚ) (m : Material) (i j : Fin 4)
    (h : ¬(i = 3 ∧ (j = 0 ∨ j = 1))) :
    (animateWater dt m).MatTransform i j = m.MatTransform i j := by
  show (if i = 3 ∧ j = 0 then _ else if i = 3 ∧ j = 1 then _ else
    m.MatTransform i j) = m.MatTransform i j
  rw [if_neg (fun hh => h ⟨hh.1, Or.inl hh.2⟩),
    if_neg (fun hh => h ⟨hh.1, Or.inr hh.2⟩)]

theorem stepMatItem_fst (p : String × Material) : (stepMatItem p).1 = p.1 := by
  unfold stepMatItem; split <;> rfl

theorem stepMatItem_Name (p : String × Material) :
    (stepMatItem p).2.Name = p.2.Name := by
  unfold stepMatItem; split <;> rfl

theorem stepMatItem_MatCBIndex (p : String × Material) :
    (stepMatItem p).2.MatCBIndex = p.2.MatCBIndex := by
  unfold stepMatItem; split <;> rfl

theorem stepMatItem_DiffuseSrvHeapIndex (p : String × Material) :
    (stepMatItem p).2.DiffuseSrvHeapIndex = p.2.DiffuseSrvHeapIndex := by
  unfold stepMatItem; split <;> rfl

theorem stepMatItem_DiffuseAlbedo (p : String × Material) :
    (stepMatItem p).2.DiffuseAlbedo = p.2.DiffuseAlbedo := by
  unfold stepMatItem; split <;> rfl

theorem stepMatItem_FresnelR0 (p : String × Material) :
    (stepMatItem p).2.FresnelR0 = p.2.FresnelR0 := by
  unfold stepMatItem; split <;> rfl

theorem stepMatItem_Roughness (p : String × Material) :
    (stepMatItem p).2.Roughness = p.2.Roughness := by
  unfold stepMatItem; split <;> rfl

theorem stepMatItem_MatTransform (p : String × Material) :
    (stepMatItem p).2.MatTransform = p.2.MatTransform := by
  unfold stepMatItem; split <;> rfl

theorem stepMatItem_counter (p : String × Material) :
    (stepMatItem p).2.NumFramesDirty
      = if 0 < p.2.NumFramesDirty then p.2.NumFramesDirty - 1
        else p.2.NumFramesDirty := by
  unfold stepMatItem; split <;> simp_all

theorem AnimateMaterials_length (dt : ℚ) (mats : List (String × Material)) :
    (AnimateMaterials dt mats).length = mats.length := by
  unfold AnimateMaterials; rw [List.length_map]

theorem AnimateMaterials_getD (dt : ℚ) (mats : List (String × Material))
    (j : Nat) (hj : j < mats.length) :
    (AnimateMaterials dt mats).getD j default
      = if (mats.getD j default).1 = "water"
        then ((mats.getD j default).1, animateWater dt (mats.getD j default).2)
        else mats.getD j default := by
  unfold AnimateMaterials
  rw [getD_map_lt _ _ _ default _ hj]

/-- Claim C3: mutating a material whose dirty counter is at `k`
(`0 < k < N`) assigns the counter to exactly `N = gNumFrameResources`
(not `k+1`): the single per-frame mutation site, `AnimateMaterials`,
performs `waterMat->NumFramesDirty = gNumFrameResources` on the water
material and touches no other material. -/
theorem C3_reset_on_remutation (dt : ℚ) (mats : List (String × Material))
    (m : Material) (k : Int)
    (hmem : ("water", m) ∈ mats)
    (_hk : m.NumFramesDirty = k)
    (_h1 : 0 < k) (_h2 : k < (gNumFrameResources : Int)) :
    ("water", animateWater dt m) ∈ AnimateMaterials dt mats ∧
    (animateWater dt m).NumFramesDirty = (gNumFrameResources : Int) ∧
    (∀ p ∈ mats, p.1 ≠ "water" → p ∈ AnimateMaterials dt mats) := by
  refine ⟨?_, animateWater_counter dt m, ?_⟩
  · have h := List.mem_map_of_mem
      (fun p : String × Material =>
        if p.1 = "water" then (p.1, animateWater dt p.2) else p) hmem
    simpa [AnimateMaterials] using h
  · intro p hp hne
    have h := List.mem_map_of_mem
      (fun p : String × Material =>
        if p.1 = "water" then (p.1, animateWater dt p.2) else p) hp
    simpa [AnimateMaterials, hne] using h

/-- Claim C9 (amended): during the update pass, `UpdateObjectCBs` and
`UpdateMaterialCBs` change nothing but dirty counters, and every render
item's non-counter fields survive the whole pass unchanged; however
`AnimateMaterials`, which also runs inside `Update`, additionally
mutates the water material's `MatTransform` entries (3,0) and (3,1).
Every other material field and every non-water material's whole
`MatTransform` are unchanged. -/
theorem C9_update_pass_single_writer (st : AppState) (env : EnvInput) :
    (updatePhase st env).allRitems.length = st.allRitems.length ∧
    (∀ j, j < st.allRitems.length →
      ((updatePhase st env).allRitems.getD j default).World
          = (st.allRitems.getD j default).World ∧
      ((updatePhase st env).allRitems.getD j default).TexTransform
          = (st.allRitems.getD j default).TexTransform ∧
      ((updatePhase st env).allRitems.getD j default).ObjCBIndex
          = (st.allRitems.getD j default).ObjCBIndex) ∧
    (updatePhase st env).materials.length = st.materials.length ∧
    (∀ j, j < st.materials.length →
      ((updatePhase st env).materials.getD j default).1
          = (st.materials.getD j default).1 ∧
      ((updatePhase st env).materials.getD j default).2.Name
          = (st.materials.getD j default).2.Name ∧
      ((updatePhase st env).materials.getD j default).2.MatCBIndex
          = (st.materials.getD j default).2.MatCBIndex ∧
      ((updatePhase st env).materials.getD j default).2.DiffuseSrvHeapIndex
          = (st.materials.getD j default).2.DiffuseSrvHeapIndex ∧
      ((updatePhase st env).materials.getD j default).2.DiffuseAlbedo
          = (st.materials.getD j default).2.DiffuseAlbedo ∧
      ((updatePhase st env).materials.getD j default).2.FresnelR0
          = (st.materials.getD j default).2.FresnelR0 ∧
      ((updatePhase st env).materials.getD j default).2.Roughness
          = (st.materials.getD j default).2.Roughness ∧
      (∀ r c : Fin 4, ¬(r = 3 ∧ (c = 0 ∨ c = 1)) →
        ((updatePhase st env).materials.getD j default).2.MatTransform r c
          = (st.materials.getD j default).2.MatTransform r c) ∧
      ((st.materials.getD j default).1 ≠ "water" →
        ((updatePhase st env).materials.getD j default).2.MatTransform
          = (st.materials.getD j default).2.MatTransform)) := by
  have hitems : (updatePhase st env).allRitems = st.allRitems.map stepObjItem :=
    updatePhase_allRitems st env
  have hmats : (updatePhase st env).materials
      = (AnimateMaterials env.dt st.materials).map stepMatItem :=
    updatePhase_materials st env
  refine ⟨by rw [hitems, List.length_map], ?_, ?_, ?_⟩
  · intro j hj
    rw [hitems, getD_map_lt _ _ _ default _ hj]
    exact ⟨stepObjItem_World _, stepObjItem_TexTransform _, stepObjItem_ObjCBIndex _⟩
  · rw [hmats, List.length_map, AnimateMaterials_length]
  · intro j hj
    have hj2 : j < (AnimateMaterials env.dt st.materials).length := by
      rw [AnimateMaterials_length]; exact hj
    have hgd : (updatePhase st env).materials.getD j default
        = stepMatItem ((AnimateMaterials env.dt st.materials).getD j default) := by
      rw [hmats, getD_map_lt _ _ _ default _ hj2]
    rw [hgd, AnimateMaterials_getD _ _ _ hj]
    by_cases hw : (st.materials.getD j default).1 = "water"
    · rw [if_pos hw]
      refine ⟨?_, ?_, ?_, ?_, ?_, ?_, ?_, ?_, ?_⟩
      · rw [stepMatItem_fst]
      · rw [stepMatItem_Name]; exact animateWater_Name _ _
      · rw [stepMatItem_MatCBIndex]; exact animateWater_MatCBIndex _ _
      · rw [stepMatItem_DiffuseSrvHeapIndex]; exact animateWater_DiffuseSrvHeapIndex _ _
      · rw [stepMatItem_DiffuseAlbedo]; exact animateWater_DiffuseAlbedo _ _
      · rw [stepMatItem_FresnelR0]; exact animateWater_FresnelR0 _ _
      · rw [stepMatItem_Roughness]; exact animateWater_Roughness _ _
      · intro r c hrc
        rw [stepMatItem_MatTransform]
        exact animateWater_MatTransform_other _ _ r c hrc
      · intro hne; exact absurd hw hne
    · rw [if_neg hw]
      refine ⟨stepMatItem_fst _, stepMatItem_Name _, stepMatItem_MatCBIndex _,
        stepMatItem_DiffuseSrvHeapIndex _, stepMatItem_DiffuseAlbedo _,
        stepMatItem_FresnelR0 _, stepMatItem_Roughness _,
        fun r c _ => by rw [stepMatItem_MatTransform],
        fun _ => stepMatItem_MatTransform _⟩

/-- The dirty-counter range invariant of claim C10. -/
abbrev dirtyInv (st : AppState) : Prop :=
  (∀ e ∈ st.allRitems,
    0 ≤ e.NumFramesDirty ∧ e.NumFramesDirty ≤ (gNumFrameResources : Int)) ∧
  (∀ p ∈ st.materials,
    0 ≤ p.2.NumFramesDirty ∧ p.2.NumFramesDirty ≤ (gNumFrameResources : Int))

theorem dirtyInv_frameStep (st : AppState) (env : EnvInput)
    (h : dirtyInv st) : dirtyInv (frameStep st env) := by
  obtain ⟨hobj, hmat⟩ := h
  constructor
  · intro e he
    rw [frameStep_allRitems] at he
    obtain ⟨y, hy, rfl⟩ := List.mem_map.mp he
    have := hobj y hy
    rw [stepObjItem_counter]
    split <;> omega
  · intro p hp
    have hp2 : p ∈ (updatePhase st env).materials := hp
    rw [updatePhase_materials] at hp2
    obtain ⟨q, hq, rfl⟩ := List.mem_map.mp hp2
    rw [stepMatItem_counter]
    unfold AnimateMaterials at hq
    obtain ⟨r, hr, rfl⟩ := List.mem_map.mp hq
    have hb := hmat r hr
    by_cases hw : r.1 = "water"
    · rw [if_pos hw]
      have : (animateWater env.dt r.2).NumFramesDirty = (gNumFrameResources : Int) :=
        animateWater_counter _ _
      simp only [gNumFrameResources] at this ⊢
      split <;> omega
    · rw [if_neg hw]
      split <;> omega

/-- Claim C10: the dirty counter of every render item and material
always satisfies `0 ≤ NumFramesDirty ≤ gNumFrameResources`: it starts
at `gNumFrameResources` (the structure defaults, i.e. the in-class
initializers), is decremented only under a strict positivity guard, and
is otherwise only ever assigned `gNumFrameResources`; the range is
preserved by every frame of the loop. -/
theorem C10_dirty_counter_range :
    (({} : RenderItem).NumFramesDirty = (gNumFrameResources : Int)) ∧
    (({} : Material).NumFramesDirty = (gNumFrameResources : Int)) ∧
    (∀ (st : AppState) (env : EnvInput),
      dirtyInv st → dirtyInv (frameStep st env)) ∧
    (∀ (st : AppState) (envs : List EnvInput),
      dirtyInv st → dirtyInv (envs.foldl frameStep st)) := by
  refine ⟨rfl, rfl, dirtyInv_frameStep, ?_⟩
  intro st envs h
  induction envs generalizing st with
  | nil => exact h
  | cons env rest ih =>
    rw [List.foldl_cons]
    exact ih (frameStep st env) (dirtyInv_frameStep st env h)

theorem foldr_max_prefix (l1 l2 : List Nat) :
    l1.foldr max 0 ≤ (l1 ++ l2).foldr max 0 := by
  induction l1 with
  | nil => exact Nat.zero_le _
  | cons a t ih =>
    simp only [List.foldr_cons, List.cons_append]
    exact max_le_max (le_refl a) ih

theorem le_foldr_max (a : Nat) (l : List Nat) (h : a ∈ l) :
    a ≤ l.foldr max 0 := by
  induction l with
  | nil => cases h
  | cons b t ih =>
    rcases List.mem_cons.mp h with rfl | h2
    · exact le_max_left _ _
    · exact le_trans (ih h2) (le_max_right _ _)

theorem completedValue_mono (s : List Nat) (p q : Nat) (h : p ≤ q) :
    completedValue s p ≤ completedValue s q := by
  unfold completedValue
  rw [show q = p + (q - p) by omega, List.take_add]
  exact foldr_max_prefix _ _

theorem completedValue_append (s t : List Nat) (p : Nat) :
    completedValue s p ≤ completedValue (s ++ t) p := by
  unfold completedValue
  rw [List.take_append_eq_append_take]
  exact foldr_max_prefix _ _

theorem completedValue_waitTarget (s : List Nat) (m : Nat)
    (h : ∃ v ∈ s, m ≤ v) :
    m ≤ completedValue s (waitTarget s m) := by
  induction s with
  | nil => obtain ⟨v, hv, _⟩ := h; cases hv
  | cons a t ih =>
    unfold waitTarget completedValue
    rw [List.findIdx_cons]
    by_cases ha : m ≤ a
    · have hda : decide (m ≤ a) = true := decide_eq_true ha
      rw [hda]
      simp only [cond_true, List.take_succ_cons, List.take_zero, List.foldr_cons,
        List.foldr_nil]
      exact le_max_of_le_left ha
    · have hda : decide (m ≤ a) = false := decide_eq_false ha
      rw [hda]
      obtain ⟨v, hv, hmv⟩ := h
      rcases List.mem_cons.mp hv with rfl | hvt
      · exact absurd hmv ha
      · have hrec := ih ⟨v, hvt, hmv⟩
        unfold waitTarget completedValue at hrec
        simp only [cond_false, List.take_succ_cons, List.foldr_cons]
        exact le_max_of_le_right hrec

theorem advanceBlocks_iff (marker completed : Nat) :
    advanceBlocks marker completed = true ↔ (marker ≠ 0 ∧ completed < marker) := by
  unfold advanceBlocks
  simp [Bool.and_eq_true]

/-- The reachability invariant of the fence: every nonzero slot marker
has been signalled (the retire step pushes exactly the marker it
stores). -/
abbrev markerInv (st : AppState) : Prop :=
  ∀ fr ∈ st.frameResources, fr.Fence ≠ 0 →
    ∃ v ∈ st.fenceSignaled, fr.Fence ≤ v

theorem markerInv_frameStep (st : AppState) (env : EnvInput)
    (h : markerInv st) : markerInv (frameStep st env) := by
  intro fr hfr hne
  obtain ⟨s, hs, hsfr⟩ := List.mem_iff_getElem.mp hfr
  have hlen0 : (frameStep st env).frameResources.length
      = st.frameResources.length := frameStep_frameResources_length st env
  have hs0 : s < st.frameResources.length := by rw [← hlen0]; exact hs
  have hgd : (frameStep st env).frameResources.getD s default = fr := by
    rw [List.getD_eq_getElem?_getD, List.getElem?_eq_getElem hs, Option.getD_some]
    exact hsfr
  have hnewmem : st.currentFence + 1 ∈ (frameStep st env).fenceSignaled := by
    show st.currentFence + 1 ∈ (drawPhase (updatePhase st env)).fenceSignaled
    rw [drawPhase_fenceSignaled, updatePhase_fenceSignaled, updatePhase_currentFence]
    exact List.mem_append_right _ (List.mem_singleton.mpr rfl)
  have holdmem : ∀ v ∈ st.fenceSignaled, v ∈ (frameStep st env).fenceSignaled := by
    intro v hv
    show v ∈ (drawPhase (updatePhase st env)).fenceSignaled
    rw [drawPhase_fenceSignaled, updatePhase_fenceSignaled]
    exact List.mem_append_left _ hv
  have hup : s < (updatePhase st env).frameResources.length := by
    rw [updatePhase_frameResources_length]; exact hs0
  have hfs : (frameStep st env).frameResources.getD s default
      = if s = (updatePhase st env).currFrameResourceIndex
        then { (updatePhase st env).frameResources.getD
            ((updatePhase st env).currFrameResourceIndex) default with
          Fence := (updatePhase st env).currentFence + 1 }
        else (updatePhase st env).frameResources.getD s default := by
    show (drawPhase (updatePhase st env)).frameResources.getD s default = _
    unfold drawPhase
    rw [getD_set_lt _ _ _ _ _ hup]
  rw [hgd] at hfs
  by_cases he : s = (updatePhase st env).currFrameResourceIndex
  · rw [if_pos he] at hfs
    refine ⟨st.currentFence + 1, hnewmem, ?_⟩
    rw [hfs]
    exact le_of_eq (show ((updatePhase st env).currentFence + 1 : Nat)
      = st.currentFence + 1 by rw [updatePhase_currentFence])
  · rw [if_neg he] at hfs
    have hupF : ((updatePhase st env).frameResources.getD s default).Fence
        = (st.frameResources.getD s default).Fence := by
      unfold updatePhase
      rw [getD_set_lt _ _ _ _ _ hs0]
      by_cases he2 : s = (st.currFrameResourceIndex + 1) % gNumFrameResources
      · rw [if_pos he2, he2]
      · rw [if_neg he2]
    have hmem0 : st.frameResources.getD s default ∈ st.frameResources := by
      rw [List.getD_eq_getElem?_getD, List.getElem?_eq_getElem hs0, Option.getD_some]
      exact List.getElem_mem hs0
    have hne0 : (st.frameResources.getD s default).Fence ≠ 0 := by
      rw [← hupF, ← hfs]; exact hne
    obtain ⟨v, hv, hvle⟩ := h (st.frameResources.getD s default) hmem0 hne0
    refine ⟨v, holdmem v hv, ?_⟩
    rw [hfs, hupF]
    exact hvle

/-- Claim C1: the ring advance at the start of `Update` blocks exactly
when the newly selected slot's stored marker is nonzero and the fence's
completed value is strictly less than that marker; on the boundary
(completed value equal to the marker) it does not block; and whenever
the marker is nonzero, the advance only returns once the observed
completed value is at least the marker.  The hypothesis `hsig` is the
fence invariant that every nonzero marker was previously signalled
(established for every reachable state by `markerInv_frameStep`). -/
theorem C1_advance_blocking (st : AppState) (env : EnvInput)
    (hsig : (st.frameResources.getD
        ((st.currFrameResourceIndex + 1) % gNumFrameResources) default).Fence ≠ 0 →
      ∃ v ∈ st.fenceSignaled,
        (st.frameResources.getD
          ((st.currFrameResourceIndex + 1) % gNumFrameResources) default).Fence ≤ v) :
    (advanceBlocks
        (st.frameResources.getD
          ((st.currFrameResourceIndex + 1) % gNumFrameResources) default).Fence
        (polledCompleted st env) = true
      ↔ ((st.frameResources.getD
            ((st.currFrameResourceIndex + 1) % gNumFrameResources) default).Fence ≠ 0
          ∧ polledCompleted st env
            < (st.frameResources.getD
                ((st.currFrameResourceIndex + 1) % gNumFrameResources) default).Fence)) ∧
    (polledCompleted st env
        = (st.frameResources.getD
            ((st.currFrameResourceIndex + 1) % gNumFrameResources) default).Fence →
      advanceBlocks
        (st.frameResources.getD
          ((st.currFrameResourceIndex + 1) % gNumFrameResources) default).Fence
        (polledCompleted st env) = false) ∧
    ((st.frameResources.getD
        ((st.currFrameResourceIndex + 1) % gNumFrameResources) default).Fence ≠ 0 →
      (st.frameResources.getD
          ((st.currFrameResourceIndex + 1) % gNumFrameResources) default).Fence
        ≤ completedValue st.fenceSignaled (updatePhase st env).gpuProcessed) := by
  refine ⟨advanceBlocks_iff _ _, ?_, ?_⟩
  · intro heq
    cases hab : advanceBlocks
        (st.frameResources.getD
          ((st.currFrameResourceIndex + 1) % gNumFrameResources) default).Fence
        (polledCompleted st env) with
    | false => rfl
    | true =>
      exfalso
      have hc := (advanceBlocks_iff _ _).mp hab
      rw [heq] at hc
      exact lt_irrefl _ hc.2
  · intro hne
    rw [updatePhase_gpuProcessed]
    by_cases hb : advanceBlocks
        (st.frameResources.getD
          ((st.currFrameResourceIndex + 1) % gNumFrameResources) default).Fence
        (polledCompleted st env) = true
    · rw [if_pos hb]
      have h1 := completedValue_waitTarget st.fenceSignaled
        (st.frameResources.getD
          ((st.currFrameResourceIndex + 1) % gNumFrameResources) default).Fence
        (hsig hne)
      exact le_trans h1 (completedValue_mono _ _ _ (le_max_right _ _))
    · rw [if_neg hb]
      have h2 : ¬ ((st.frameResources.getD
          ((st.currFrameResourceIndex + 1) % gNumFrameResources) default).Fence ≠ 0
          ∧ polledCompleted st env
            < (st.frameResources.getD
                ((st.currFrameResourceIndex + 1) % gNumFrameResources) default).Fence) :=
        fun hc => hb ((advanceBlocks_iff _ _).mpr hc)
      have h3 : ¬ polledCompleted st env
          < (st.frameResources.getD
              ((st.currFrameResourceIndex + 1) % gNumFrameResources) default).Fence :=
        fun hlt => h2 ⟨hne, hlt⟩
      exact le_of_not_lt h3

theorem frameStep_currentFence (st : AppState) (env : EnvInput) :
    (frameStep st env).currentFence = st.currentFence + 1 := by
  show (drawPhase (updatePhase st env)).currentFence = _
  rw [drawPhase_currentFence, updatePhase_currentFence]

theorem frameStep_fenceSignaled (st : AppState) (env : EnvInput) :
    (frameStep st env).fenceSignaled
      = st.fenceSignaled ++ [st.currentFence + 1] := by
  show (drawPhase (updatePhase st env)).fenceSignaled = _
  rw [drawPhase_fenceSignaled, updatePhase_fenceSignaled, updatePhase_currentFence]

theorem foldl_frameStep_currentFence (st : AppState) (envs : List EnvInput) :
    (envs.foldl frameStep st).currentFence = st.currentFence + envs.length := by
  induction envs generalizing st with
  | nil => simp
  | cons env rest ih =>
    rw [List.foldl_cons, ih, frameStep_currentFence, List.length_cons]
    omega

theorem frameStep_gpuProcessed_ge (st : AppState) (env : EnvInput) :
    st.gpuProcessed + env.gpuProgress ≤ (frameStep st env).gpuProcessed := by
  show _ ≤ (drawPhase (updatePhase st env)).gpuProcessed
  rw [drawPhase_gpuProcessed, updatePhase_gpuProcessed]
  split
  · exact le_max_left _ _
  · exact le_refl _

/-- Claim C6: the retire step stores the freshly incremented fence
counter as the current slot's marker and signals exactly that value;
markers stored on successive frames are strictly increasing (the
counter after `n` frames is the initial counter plus `n`); and the
CPU-observed completed value of the fence is non-decreasing across
successive per-frame polls. -/
theorem C6_retire_and_fence_monotonicity :
    (∀ (st : AppState) (env : EnvInput),
      st.frameResources.length = gNumFrameResources →
      (frameStep st env).currentFence = st.currentFence + 1 ∧
      (frameStep st env).fenceSignaled = st.fenceSignaled ++ [st.currentFence + 1] ∧
      ((frameStep st env).frameResources.getD
          (frameStep st env).currFrameResourceIndex default).Fence
        = st.currentFence + 1) ∧
    (∀ (st : AppState) (envs : List EnvInput),
      (envs.foldl frameStep st).currentFence = st.currentFence + envs.length) ∧
    (∀ (st : AppState) (envs : List EnvInput) (env env2 : EnvInput),
      (frameStep (envs.foldl frameStep st) env).currentFence
        < (frameStep ((envs ++ [env]).foldl frameStep st) env2).currentFence) ∧
    (∀ (st : AppState) (env env2 : EnvInput),
      polledCompleted st env ≤ polledCompleted (frameStep st env) env2) := by
  refine ⟨?_, foldl_frameStep_currentFence, ?_, ?_⟩
  · intro st env hfr
    refine ⟨frameStep_currentFence st env, frameStep_fenceSignaled st env, ?_⟩
    have hlen1 : (updatePhase st env).frameResources.length = gNumFrameResources := by
      rw [updatePhase_frameResources_length]; exact hfr
    have hcur : (frameStep st env).currFrameResourceIndex
        = (updatePhase st env).currFrameResourceIndex := rfl
    have hlt : (updatePhase st env).currFrameResourceIndex
        < (updatePhase st env).frameResources.length := by
      rw [hlen1, updatePhase_currIdx]
      exact Nat.mod_lt _ (by decide)
    show ((drawPhase (updatePhase st env)).frameResources.getD
        (frameStep st env).currFrameResourceIndex default).Fence = _
    rw [hcur, drawPhase_Fence _ _ hlt, if_pos rfl, updatePhase_currentFence]
  · intro st envs env env2
    rw [frameStep_currentFence, frameStep_currentFence,
      foldl_frameStep_currentFence, foldl_frameStep_currentFence,
      List.length_append]
    simp only [List.length_cons, List.length_nil]
    omega
  · intro st env env2
    unfold polledCompleted
    have h1 : completedValue st.fenceSignaled (st.gpuProcessed + env.gpuProgress)
        ≤ completedValue (frameStep st env).fenceSignaled
          (st.gpuProcessed + env.gpuProgress) := by
      rw [frameStep_fenceSignaled]
      exact completedValue_append _ _ _
    have h2 : completedValue (frameStep st env).fenceSignaled
          (st.gpuProcessed + env.gpuProgress)
        ≤ completedValue (frameStep st env).fenceSignaled
          ((frameStep st env).gpuProcessed + env2.gpuProgress) :=
      completedValue_mono _ _ _
        (le_trans (frameStep_gpuProcessed_ge st env) (Nat.le_add_right _ _))
    exact le_trans h1 h2

theorem inv4_eq_inv (M : Mat4) : inv4 M = M⁻¹ := by
  rw [Matrix.inv_def]
  unfold inv4
  rw [Ring.inverse_eq_inv']

/-- Claim C7: every frame, with no dirty condition, writes record 0 of
the current frame resource's pass buffer with the pass constants in
which `viewProj = view * proj`, the three inverses are the general
determinant-based 4x4 inverse (`inv4`, which agrees with the
mathematical matrix inverse), and all six matrices are stored
transposed. -/
theorem C7_pass_constant_update (st : AppState) (env : EnvInput)
    (hfr : st.frameResources.length = gNumFrameResources) :
    ((frameStep st env).frameResources.getD
        (frameStep st env).currFrameResourceIndex default).PassCB.data 0
      = some (mkMainPassCB env.view env.proj env.eye env.tt env.dt) ∧
    (mkMainPassCB env.view env.proj env.eye env.tt env.dt).View
      = env.view.transpose ∧
    (mkMainPassCB env.view env.proj env.eye env.tt env.dt).Proj
      = env.proj.transpose ∧
    (mkMainPassCB env.view env.proj env.eye env.tt env.dt).ViewProj
      = (env.view * env.proj).transpose ∧
    (mkMainPassCB env.view env.proj env.eye env.tt env.dt).InvView
      = (inv4 env.view).transpose ∧
    (mkMainPassCB env.view env.proj env.eye env.tt env.dt).InvProj
      = (inv4 env.proj).transpose ∧
    (mkMainPassCB env.view env.proj env.eye env.tt env.dt).InvViewProj
      = (inv4 (env.view * env.proj)).transpose ∧
    (∀ M : Mat4, inv4 M = M⁻¹) := by
  refine ⟨?_, rfl, rfl, rfl, rfl, rfl, rfl, inv4_eq_inv⟩
  have hcur : (frameStep st env).currFrameResourceIndex
      = (updatePhase st env).currFrameResourceIndex := rfl
  show ((drawPhase (updatePhase st env)).frameResources.getD
      (frameStep st env).currFrameResourceIndex default).PassCB.data 0 = _
  rw [hcur, drawPhase_PassCB, updatePhase_PassCB_data st env 0 hfr,
    CopyData_data, if_pos rfl]

theorem UpdateWavesVB_data (w : WavesData) (count : Nat)
    (vb : UploadBuffer Vertex) (i : Nat) :
    (UpdateWavesVB w count vb).data i
      = if i < count then some (waveVertex w i) else vb.data i := by
  induction count with
  | zero => simp [UpdateWavesVB]
  | succ n ih =>
    unfold UpdateWavesVB
    rw [List.range_succ, List.foldl_append]
    simp only [List.foldl_cons, List.foldl_nil]
    change ((UpdateWavesVB w n vb).CopyData n (waveVertex w n)).data i = _
    rw [CopyData_data]
    by_cases h1 : i = n
    · rw [if_pos h1, if_pos (by omega), h1]
    · rw [if_neg h1, ih]
      by_cases h2 : i < n
      · rw [if_pos h2, if_pos (by omega)]
      · rw [if_neg h2, if_neg (by omega)]

theorem updatePhase_handleId (st : AppState) (env : EnvInput)
    (hfr : st.frameResources.length = gNumFrameResources) :
    ((updatePhase st env).frameResources.getD
        (updatePhase st env).currFrameResourceIndex default).handleId
      = (st.frameResources.getD
          ((st.currFrameResourceIndex + 1) % gNumFrameResources) default).handleId := by
  have hs' : (st.currFrameResourceIndex + 1) % gNumFrameResources
      < st.frameResources.length := by
    rw [hfr]; exact Nat.mod_lt _ (by decide)
  rw [updatePhase_currIdx]
  simp only [updatePhase]
  rw [getD_set_lt _ _ _ _ _ hs']
  simp

/-- Claim C8: every frame, every one of the `VertexCount()` simulated
wave vertices is copied unconditionally into the current frame
resource's dynamic wave vertex buffer at its vertex index, and the wave
render item's geometry vertex-buffer binding is repointed to the
current frame resource's buffer handle during `Update`, before the
frame's draw submission (and `Draw` does not change the binding). -/
theorem C8_wave_vertex_channel (st : AppState) (env : EnvInput)
    (hfr : st.frameResources.length = gNumFrameResources) :
    (∀ i, i < st.wavesVertexCount →
      ((updatePhase st env).frameResources.getD
          (updatePhase st env).currFrameResourceIndex default).WavesVB.data i
        = some (waveVertex env.waves i)) ∧
    (updatePhase st env).wavesGeoVB
      = ((updatePhase st env).frameResources.getD
          (updatePhase st env).currFrameResourceIndex default).handleId ∧
    (drawPhase (updatePhase st env)).wavesGeoVB = (updatePhase st env).wavesGeoVB := by
  refine ⟨?_, ?_, rfl⟩
  · intro i hi
    rw [updatePhase_WavesVB_data st env i hfr, UpdateWavesVB_data, if_pos hi]
  · rw [updatePhase_wavesGeoVB, updatePhase_handleId st env hfr]

def mkV3 (a b c : ℚ) : V3 :=
  fun i => if i = 0 then a else if i = 1 then b else c

def mkV4 (a b c d : ℚ) : V4 :=
  fun i => if i = 0 then a else if i = 1 then b else if i = 2 then c else d

def mkMaterial (name : String) (idx : Nat) (albedo : V4) (fresnel : V3)
    (rough : ℚ) : Material :=
  { Name := name
    MatCBIndex := idx
    DiffuseSrvHeapIndex := idx
    DiffuseAlbedo := albedo
    FresnelR0 := fresnel
    Roughness := rough }

/-- `CastleApp::BuildMaterials` (lines 1427-1523): ten materials with
`MatCBIndex` 0..9 (`DiffuseSrvHeapIndex` always equals `MatCBIndex`
there).  Float literals are carried as the corresponding rationals
(the shading values do not affect any indexing claim). -/
def castleMaterials : List (String × Material) :=
  [("grass", mkMaterial "grass" 0 (mkV4 1 1 1 1)
      (mkV3 (1/100) (1/100) (1/100)) (1/8)),
   ("water", mkMaterial "water" 1 (mkV4 1 1 1 (1/2))
      (mkV3 (1/10) (1/10) (1/10)) 0),
   ("tile", mkMaterial "tile" 2 (mkV4 1 1 1 1)
      (mkV3 (1/50) (1/50) (1/50)) (1/4)),
   ("wood", mkMaterial "wood" 3 (mkV4 1 1 1 1)
      (mkV3 (1/50) (1/50) (1/50)) (1/4)),
   ("metal", mkMaterial "metal" 4 (mkV4 1 1 1 1)
      (mkV3 (1/50) (1/50) (1/50)) (1/4)),
   ("glass", mkMaterial "glass" 5 (mkV4 1 1 1 1)
      (mkV3 (1/50) (1/50) (1/50)) (1/4)),
   ("ice", mkMaterial "ice" 6 (mkV4 1 1 1 1)
      (mkV3 (1/50) (1/50) (1/50)) (1/4)),
   ("stone", mkMaterial "stone" 7 (mkV4 1 1 1 1)
      (mkV3 (1/50) (1/50) (1/50)) (1/4)),
   ("brick2", mkMaterial "brick2" 8 (mkV4 1 1 1 1)
      (mkV3 (1/50) (1/50) (1/50)) (1/4)),
   ("treeSprites", mkMaterial "treeSprites" 9 (mkV4 1 1 1 1)
      (mkV3 (1/100) (1/100) (1/100)) (1/8))]

/-- `LitColumnsApp::BuildMaterials` (lines 730-768): four materials,
with `MatCBIndex` 0, 1, 2 and 4 — index 3 is skipped, while
`BuildFrameResources` (lines 721-728) sizes the per-material ring
buffer to `mMaterials.size() = 4` elements.  Albedos are
`DirectX::Colors` constants (channel/255). -/
def litColumnsMaterials : List (String × Material) :=
  [("bricks0", mkMaterial "bricks0" 0
      (mkV4 (211/255) (211/255) (211/255) 1)
      (mkV3 (1/50) (1/50) (1/50)) (1/10)),
   ("stone0", mkMaterial "stone0" 1
      (mkV4 (169/255) (169/255) (169/255) 1)
      (mkV3 (1/20) (1/20) (1/20)) (3/10)),
   ("greenMat", mkMaterial "greenMat" 2
      (mkV4 (34/255) (139/255) (34/255) 1)
      (mkV3 (1/50) (1/50) (1/50)) (1/5)),
   ("brownMat", mkMaterial "brownMat" 4
      (mkV4 (139/255) (69/255) (19/255) 1)
      (mkV3 (1/20) (1/20) (1/20)) (3/10))]

/-- The index-assignment discipline of `BuildRenderItems` and its
helpers in both apps: each of the creation sites (51 in CastleApp.cpp,
32 in LitColumnsApp.cpp, including those inside loops) performs
`item->ObjCBIndex = objCBIndex++` and then pushes the item onto
`mAllRitems`, with the counter starting at 0; so the item at build
position `i` carries index `i`. -/
def assignObjCBIndicesFrom (i : Nat) : List RenderItem → List RenderItem
  | [] => []
  | e :: t => { e with ObjCBIndex := i } :: assignObjCBIndicesFrom (i + 1) t

def assignObjCBIndices (protoItems : List RenderItem) : List RenderItem :=
  assignObjCBIndicesFrom 0 protoItems

theorem assignObjCBIndicesFrom_length (i : Nat) (l : List RenderItem) :
    (assignObjCBIndicesFrom i l).length = l.length := by
  induction l generalizing i with
  | nil => rfl
  | cons e t ih => simp [assignObjCBIndicesFrom, ih]

theorem assignObjCBIndicesFrom_getD (i j : Nat) (l : List RenderItem)
    (hj : j < l.length) :
    (assignObjCBIndicesFrom i l).getD j default
      = { l.getD j default with ObjCBIndex := i + j } := by
  induction l generalizing i j with
  | nil => simp at hj
  | cons e t ih =>
    cases j with
    | zero => rfl
    | succ j =>
      have hj2 : j < t.length := by simpa using hj
      simp only [assignObjCBIndicesFrom, List.getD_cons_succ]
      rw [ih (i + 1) j hj2, show i + 1 + j = i + (j + 1) from by omega]

/-- Every item built by the counter discipline has `ObjCBIndex` below
the item count, so every per-object `CopyData` index in the update pass
is in bounds for a buffer sized to `mAllRitems.size()`; moreover the
indices are pairwise distinct (the `objIdxOK` hypothesis of the
propagation theorems). -/
theorem assignObjCBIndices_bounds (l : List RenderItem) :
    ((assignObjCBIndices l).length = l.length) ∧
    (∀ j, j < l.length →
      ((assignObjCBIndices l).getD j default).ObjCBIndex = j) ∧
    (∀ j, j < l.length →
      ((assignObjCBIndices l).getD j default).ObjCBIndex
        < (assignObjCBIndices l).length) ∧
    (∀ k, k < l.length → objIdxOK (assignObjCBIndices l) k) := by
  have hlen : (assignObjCBIndices l).length = l.length :=
    assignObjCBIndicesFrom_length 0 l
  have hgd : ∀ j, j < l.length →
      ((assignObjCBIndices l).getD j default).ObjCBIndex = j := by
    intro j hj
    unfold assignObjCBIndices
    rw [assignObjCBIndicesFrom_getD 0 j l hj]
    show 0 + j = j
    omega
  refine ⟨hlen, hgd, ?_, ?_⟩
  · intro j hj
    rw [hgd j hj, hlen]
    exact hj
  · intro k hk j hj hjk
    rw [hlen] at hj
    rw [hgd j hj, hgd k hk]
    exact hjk

/-- Claim C4 (code bug): in `LitColumnsApp`, the material "brownMat" is
created with `MatCBIndex = 4` while `BuildFrameResources` passes
`mMaterials.size() = 4` as the per-material element count, so the
update-pass write `CopyData(4, ...)` is out of bounds for the 4-element
buffer (the spec's `copyRecord` precondition `index < elementCount` is
violated; index 3 is simply skipped in `BuildMaterials`).  The Castle
app's materials, by contrast, are all in bounds. -/
theorem C4_material_index_out_of_bounds :
    litColumnsMaterials.length = 4 ∧
    (litColumnsMaterials.map fun p => p.2.MatCBIndex) = [0, 1, 2, 4] ∧
    (litColumnsMaterials.getD 3 default).2.Name = "brownMat" ∧
    (litColumnsMaterials.getD 3 default).2.NumFramesDirty
      = (gNumFrameResources : Int) ∧
    (FrameResource.create 0 0 litColumnsMaterials.length 0).MaterialCB.elementCount
      = 4 ∧
    (FrameResource.create 0 0 litColumnsMaterials.length 0).MaterialCB.elementCount
      ≤ (litColumnsMaterials.getD 3 default).2.MatCBIndex ∧
    (castleMaterials.all
      (fun p => p.2.MatCBIndex < castleMaterials.length)) = true ∧
    (litColumnsMaterials.all
      (fun p => p.2.MatCBIndex < litColumnsMaterials.length)) = false := by
  refine ⟨by decide, by decide, by decide, by decide, by decide, by decide,
    by decide, by decide⟩

/-- Concrete wave-simulation output used in the witness states. -/
def testWaves : WavesData :=
  { pos := fun _ => mkV3 0 0 0
    normal := fun _ => mkV3 0 1 0
    width := 10
    depth := 10 }

/-- Concrete per-frame environment input used in the witness states. -/
def testEnv : EnvInput :=
  { view := 1
    proj := 1
    eye := mkV3 0 0 0
    tt := 0
    dt := 1
    gpuProgress := 0
    waves := testWaves }

/-- A small concrete app state: 3 frame resources sized for 1 render
item, 1 material and 2 wave vertices; one freshly built render item
(counter 3) and the water material (counter 3, identity MatTransform). -/
def testState : AppState :=
  { frameResources := [FrameResource.create 0 1 1 2,
      FrameResource.create 1 1 1 2, FrameResource.create 2 1 1 2]
    currFrameResourceIndex := 0
    currentFence := 0
    allRitems := [{ ObjCBIndex := 0 }]
    materials := [("water", mkMaterial "water" 0 (mkV4 1 1 1 (1/2))
      (mkV3 (1/10) (1/10) (1/10)) 0)]
    wavesGeoVB := 0
    wavesVertexCount := 2
    fenceSignaled := []
    gpuProcessed := 0 }

/-- Variant of `testState` whose next ring slot carries marker 5 that
has been signalled but not yet completed by the GPU. -/
def testStateC1 : AppState :=
  { testState with
    frameResources := [FrameResource.create 0 1 1 2,
      { FrameResource.create 1 1 1 2 with Fence := 5 },
      FrameResource.create 2 1 1 2]
    fenceSignaled := [5]
    gpuProcessed := 0 }

/-- Variant of `testState` whose render item has dirty counter 0. -/
def testStateC5 : AppState :=
  { testState with allRitems := [{ ObjCBIndex := 0, NumFramesDirty := 0 }] }

/-- Water material with its dirty counter caught mid-propagation at 2. -/
def waterTestMat : Material :=
  { mkMaterial "water" 1 (mkV4 1 1 1 (1/2)) (mkV3 (1/10) (1/10) (1/10)) 0 with
    NumFramesDirty := 2 }

theorem C1_advance_blocking_witness :
    (testStateC1.frameResources.getD
        ((testStateC1.currFrameResourceIndex + 1) % gNumFrameResources)
          default).Fence = 5 ∧
    polledCompleted testStateC1 testEnv = 0 ∧
    (testStateC1.frameResources.getD
        ((testStateC1.currFrameResourceIndex + 1) % gNumFrameResources)
          default).Fence
      ≤ completedValue testStateC1.fenceSignaled
          (updatePhase testStateC1 testEnv).gpuProcessed :=
  ⟨by decide, by decide,
   (C1_advance_blocking testStateC1 testEnv (by decide)).2.2 (by decide)⟩

theorem C2_propagation_completeness_witness :
    testState.frameResources.length = gNumFrameResources ∧
    0 < testState.allRitems.length ∧
    (testState.allRitems.getD 0 default).NumFramesDirty = 3 ∧
    ((frameStep (frameStep (frameStep testState testEnv) testEnv)
        testEnv).allRitems.getD 0 default).NumFramesDirty = 0 ∧
    ((frameStep (frameStep (frameStep testState testEnv) testEnv)
        testEnv).frameResources.getD 0 default).ObjectCB.data
        (testState.allRitems.getD 0 default).ObjCBIndex
      = some (objPayload (testState.allRitems.getD 0 default)) ∧
    ((frameStep (frameStep (frameStep testState testEnv) testEnv)
        testEnv).frameResources.getD 1 default).ObjectCB.data
        (testState.allRitems.getD 0 default).ObjCBIndex
      = some (objPayload (testState.allRitems.getD 0 default)) ∧
    ((frameStep (frameStep (frameStep testState testEnv) testEnv)
        testEnv).frameResources.getD 2 default).ObjectCB.data
        (testState.allRitems.getD 0 default).ObjCBIndex
      = some (objPayload (testState.allRitems.getD 0 default)) :=
  ⟨by decide, by decide, by decide,
   (C2_propagation_completeness testState testEnv testEnv testEnv 0
     (by decide) (by decide) (by decide) (by decide)).2.2.2.2.2.1,
   (C2_propagation_completeness testState testEnv testEnv testEnv 0
     (by decide) (by decide) (by decide) (by decide)).2.2.2.2.2.2 0 (by decide),
   (C2_propagation_completeness testState testEnv testEnv testEnv 0
     (by decide) (by decide) (by decide) (by decide)).2.2.2.2.2.2 1 (by decide),
   (C2_propagation_completeness testState testEnv testEnv testEnv 0
     (by decide) (by decide) (by decide) (by decide)).2.2.2.2.2.2 2 (by decide)⟩

theorem C3_reset_on_remutation_witness :
    waterTestMat.NumFramesDirty = 2 ∧
    (0 : Int) < 2 ∧
    (2 : Int) < (gNumFrameResources : Int) ∧
    ("water", animateWater 1 waterTestMat)
      ∈ AnimateMaterials 1 [("water", waterTestMat)] ∧
    (animateWater 1 waterTestMat).NumFramesDirty = (gNumFrameResources : Int) :=
  ⟨by decide, by decide, by decide,
   (C3_reset_on_remutation 1 [("water", waterTestMat)] waterTestMat 2
     (List.mem_singleton.mpr rfl) (by decide) (by decide) (by decide)).1,
   (C3_reset_on_remutation 1 [("water", waterTestMat)] waterTestMat 2
     (List.mem_singleton.mpr rfl) (by decide) (by decide) (by decide)).2.1⟩

theorem C5_no_redundant_writes_witness :
    testStateC5.frameResources.length = gNumFrameResources ∧
    0 < testStateC5.allRitems.length ∧
    (testStateC5.allRitems.getD 0 default).NumFramesDirty = 0 ∧
    (([testEnv, testEnv].foldl frameStep testStateC5).allRitems.getD 0
        default).NumFramesDirty = 0 ∧
    (([testEnv, testEnv].foldl frameStep testStateC5).frameResources.getD 1
        default).ObjectCB.data (testStateC5.allRitems.getD 0 default).ObjCBIndex
      = (testStateC5.frameResources.getD 1 default).ObjectCB.data
        (testStateC5.allRitems.getD 0 default).ObjCBIndex :=
  ⟨by decide, by decide, by decide,
   (C5_no_redundant_writes testStateC5 [testEnv, testEnv] 0
     (by decide) (by decide) (by decide) (by decide)).1,
   (C5_no_redundant_writes testStateC5 [testEnv, testEnv] 0
     (by decide) (by decide) (by decide) (by decide)).2.2 1 (by decide)⟩

theorem C6_retire_and_fence_monotonicity_witness :
    testState.frameResources.length = gNumFrameResources ∧
    ((frameStep testState testEnv).currentFence = testState.currentFence + 1 ∧
     (frameStep testState testEnv).fenceSignaled
       = testState.fenceSignaled ++ [testState.currentFence + 1] ∧
     ((frameStep testState testEnv).frameResources.getD
         (frameStep testState testEnv).currFrameResourceIndex default).Fence
       = testState.currentFence + 1) ∧
    ([testEnv, testEnv].foldl frameStep testState).currentFence
      = testState.currentFence + [testEnv, testEnv].length ∧
    polledCompleted testState testEnv
      ≤ polledCompleted (frameStep testState testEnv) testEnv :=
  ⟨by decide,
   C6_retire_and_fence_monotonicity.1 testState testEnv (by decide),
   C6_retire_and_fence_monotonicity.2.1 testState [testEnv, testEnv],
   C6_retire_and_fence_monotonicity.2.2.2 testState testEnv testEnv⟩

theorem C7_pass_constant_update_witness :
    testState.frameResources.length = gNumFrameResources ∧
    ((frameStep testState testEnv).frameResources.getD
        (frameStep testState testEnv).currFrameResourceIndex default).PassCB.data 0
      = some (mkMainPassCB testEnv.view testEnv.proj testEnv.eye testEnv.tt
          testEnv.dt) ∧
    (mkMainPassCB testEnv.view testEnv.proj testEnv.eye testEnv.tt
        testEnv.dt).ViewProj = (testEnv.view * testEnv.proj).transpose :=
  ⟨by decide,
   (C7_pass_constant_update testState testEnv (by decide)).1,
   (C7_pass_constant_update testState testEnv (by decide)).2.2.2.1⟩

theorem C8_wave_vertex_channel_witness :
    testState.frameResources.length = gNumFrameResources ∧
    0 < testState.wavesVertexCount ∧
    ((updatePhase testState testEnv).frameResources.getD
        (updatePhase testState testEnv).currFrameResourceIndex
          default).WavesVB.data 0
      = some (waveVertex testEnv.waves 0) ∧
    ((updatePhase testState testEnv).frameResources.getD
        (updatePhase testState testEnv).currFrameResourceIndex
          default).WavesVB.data 1
      = some (waveVertex testEnv.waves 1) ∧
    (updatePhase testState testEnv).wavesGeoVB
      = ((updatePhase testState testEnv).frameResources.getD
          (updatePhase testState testEnv).currFrameResourceIndex
            default).handleId :=
  ⟨by decide, by decide,
   (C8_wave_vertex_channel testState testEnv (by decide)).1 0 (by decide),
   (C8_wave_vertex_channel testState testEnv (by decide)).1 1 (by decide),
   (C8_wave_vertex_channel testState testEnv (by decide)).2.1⟩

theorem animateWater_entry (dt : ℚ) (m : Material) :
    (animateWater dt m).MatTransform 3 0
      = (if 1 ≤ m.MatTransform 3 0 + 1/10 * dt
         then m.MatTransform 3 0 + 1/10 * dt - 1
         else m.MatTransform 3 0 + 1/10 * dt) := rfl

/-- Claim C9 counterexample: at a concrete state, the update pass
itself changes the water material's `MatTransform(3,0)` (from 0 to
`0.1 * dt = 1/10`), because `AnimateMaterials` runs inside `Update`;
so the claim that the update pass leaves every field but the dirty
counter unchanged is false as stated. -/
theorem C9_counterexample_water_mattransform :
    ((updatePhase testState testEnv).materials.getD 0 default).2.MatTransform 3 0
      = 1/10 ∧
    (testState.materials.getD 0 default).2.MatTransform 3 0 = 0 ∧
    (1 : ℚ)/10 ≠ 0 := by
  refine ⟨?_, by decide, by norm_num⟩
  rw [updatePhase_materials]
  have hlen : 0 < (AnimateMaterials testEnv.dt testState.materials).length := by
    rw [AnimateMaterials_length]; decide
  rw [getD_map_lt _ _ _ default _ hlen, stepMatItem_MatTransform,
    AnimateMaterials_getD _ _ 0 (by decide),
    if_pos (show (testState.materials.getD 0 default).1 = "water" from by decide)]
  show (animateWater testEnv.dt
    (testState.materials.getD 0 default).2).MatTransform 3 0 = 1/10
  rw [animateWater_entry,
    show (testState.materials.getD 0 default).2.MatTransform 3 0 = 0 from by decide,
    show testEnv.dt = 1 from rfl]
  norm_num

theorem C9_update_pass_single_writer_witness :
    (updatePhase testState testEnv).allRitems.length
      = testState.allRitems.length ∧
    (((updatePhase testState testEnv).allRitems.getD 0 default).World
        = (testState.allRitems.getD 0 default).World ∧
      ((updatePhase testState testEnv).allRitems.getD 0 default).TexTransform
        = (testState.allRitems.getD 0 default).TexTransform ∧
      ((updatePhase testState testEnv).allRitems.getD 0 default).ObjCBIndex
        = (testState.allRitems.getD 0 default).ObjCBIndex) ∧
    ((updatePhase testState testEnv).materials.getD 0 default).2.Roughness
      = (testState.materials.getD 0 default).2.Roughness :=
  ⟨(C9_update_pass_single_writer testState testEnv).1,
   (C9_update_pass_single_writer testState testEnv).2.1 0 (by decide),
   ((C9_update_pass_single_writer testState testEnv).2.2.2 0
     (by decide)).2.2.2.2.2.2.1⟩

theorem C10_dirty_counter_range_witness :
    dirtyInv testState ∧ dirtyInv ([testEnv, testEnv].foldl frameStep testState) :=
  ⟨by decide,
   C10_dirty_counter_range.2.2.2 testState [testEnv, testEnv] (by decide)⟩
